import Mathlib

/-!
Verification development for the bllvm-commons governance core.

Shallow embedding of the governance-controlled configuration registry
(`src/governance/config_registry.rs`), the configuration reader
(`src/governance/config_reader.rs`), the economic node registry
(`src/economic_nodes/registry.rs`) and the message deduplicator
(`src/governance/message_dedup.rs`).

Modelling conventions:
- `f64` values are modelled as `Rat`; all arithmetic the claims exercise
  (division by constants, `min`/`max`, comparisons, addition and scaling)
  is order- and value-exact on the rationals involved.
- `i64`/`u32` database integers and timestamps are modelled as `Int`/`Nat`;
  no claim exercises machine-width overflow, and the `as i32`/`as u32`
  narrowing casts in the accessors are not observable for the in-range
  values any claim touches.
- SQL tables are association lists in insertion order; `fetch_optional`
  on a key is `List.find?`, an `UPDATE ... WHERE` is a `List.map` guarded
  by the row predicate, and an `INSERT` is an append.
- Storage-layer faults (`sqlx` errors mapped to `DatabaseError`) are not
  modelled: every query succeeds on the in-memory state.
- JSON round-tripping through `serde_json::to_string`/`from_str` is
  modelled as the identity on the structured value; equality of the
  serialized strings is equality of the structured values.
-/

namespace BllvmCommons

/-- JSON scalar values as used by the configuration store
(`serde_json::Value` restricted to the shapes configuration values take). -/
inductive Json where
  | null : Json
  | bool (b : Bool) : Json
  | int (n : Int) : Json
  | float (q : Rat) : Json
  | str (s : String) : Json
  deriving Repr, DecidableEq

/-- Value.as_i64: succeeds only on integer-valued JSON numbers. -/
def Json.as_i64 : Json → Option Int
  | .int n => some n
  | _ => none

/-- Value.as_u64: succeeds only on non-negative integer JSON numbers. -/
def Json.as_u64 : Json → Option Int
  | .int n => if 0 ≤ n then some n else none
  | _ => none

/-- Value.as_f64: succeeds on any JSON number. -/
def Json.as_f64 : Json → Option Rat
  | .int n => some (n : Rat)
  | .float q => some q
  | _ => none

/-- Value.as_bool. -/
def Json.as_bool : Json → Option Bool
  | .bool b => some b
  | _ => none

/-- Value.as_str. -/
def Json.as_str : Json → Option String
  | .str s => some s
  | _ => none

/-- GovernanceError taxonomy (src/error.rs as used by the embedded modules). -/
inductive GovernanceError where
  | DatabaseError (msg : String)
  | CryptoError (msg : String)
  | ConfigError (msg : String)
  deriving Repr, DecidableEq

/-- ConfigCategory (config_registry.rs). -/
inductive ConfigCategory where
  | FeatureFlags | Thresholds | TimeWindows | Limits | Network | Security | Other
  deriving Repr, DecidableEq

/-- ConfigChangeStatus (config_registry.rs). -/
inductive ConfigChangeStatus where
  | Pending | Approved | Rejected | Activated | Cancelled
  deriving Repr, DecidableEq

/-- One row of governance_config_registry. -/
structure ConfigEntry where
  id : Int
  config_key : String
  config_category : ConfigCategory
  current_value : Json
  default_value : Json
  description : Option String
  tier_requirement : Int
  created_at : Int
  updated_at : Int
  created_by : Option String
  notes : Option String
  deriving Repr, DecidableEq

/-- One row of governance_config_changes. -/
structure ConfigChange where
  id : Int
  config_key : String
  proposed_value : Json
  current_value : Json
  change_reason : Option String
  proposed_by : String
  proposed_at : Int
  tier_requirement : Int
  status : ConfigChangeStatus
  approval_pr_id : Option Int
  approved_at : Option Int
  approved_by : Option String
  activated_at : Option Int
  activation_pr_id : Option Int
  notes : Option String
  deriving Repr, DecidableEq

/-- One row of governance_config_history. -/
structure HistoryRow where
  config_key : String
  old_value : Json
  new_value : Json
  changed_at : Int
  changed_by : String
  change_id : Option Int
  activation_method : String
  deriving Repr, DecidableEq

/-- The persistent store backing ConfigRegistry: the three governance
configuration tables plus the id sequences. -/
structure RegistryDb where
  entries : List ConfigEntry
  changes : List ConfigChange
  history : List HistoryRow
  next_entry_id : Int
  next_change_id : Int
  deriving Repr, DecidableEq

/-- ConfigRegistry::get_config: fetch the entry for a key. -/
def get_config (db : RegistryDb) (config_key : String) : Option ConfigEntry :=
  db.entries.find? (fun e => e.config_key == config_key)

/-- ConfigRegistry::get_current_value. -/
def get_current_value (db : RegistryDb) (config_key : String) : Option Json :=
  (get_config db config_key).map (·.current_value)

/-- ConfigRegistry::register_config: insert a new entry whose current and
default values are both the supplied default. The only failure path in
the source is a storage fault, which the model omits. -/
def register_config (db : RegistryDb) (config_key : String)
    (category : ConfigCategory) (default_value : Json)
    (description : Option String) (tier_requirement : Int)
    (created_by : Option String) (now : Int) : Int × RegistryDb :=
  let id := db.next_entry_id
  let entry : ConfigEntry :=
    { id := id, config_key := config_key, config_category := category
      current_value := default_value, default_value := default_value
      description := description, tier_requirement := tier_requirement
      created_at := now, updated_at := now, created_by := created_by
      notes := none }
  (id, { db with entries := db.entries ++ [entry], next_entry_id := id + 1 })

/-- ConfigRegistry::propose_change: fails when the key is unknown,
otherwise inserts a pending change snapshotting the current value. -/
def propose_change (db : RegistryDb) (config_key : String)
    (proposed_value : Json) (change_reason : Option String)
    (proposed_by : String) (now : Int) :
    Except GovernanceError (Int × RegistryDb) :=
  match get_config db config_key with
  | none => .error (.ConfigError ("Config key not found: " ++ config_key))
  | some entry =>
    let id := db.next_change_id
    let change : ConfigChange :=
      { id := id, config_key := config_key, proposed_value := proposed_value
        current_value := entry.current_value, change_reason := change_reason
        proposed_by := proposed_by, proposed_at := now
        tier_requirement := entry.tier_requirement, status := .Pending
        approval_pr_id := none, approved_at := none, approved_by := none
        activated_at := none, activation_pr_id := none, notes := none }
    .ok (id, { db with changes := db.changes ++ [change],
                       next_change_id := id + 1 })

/-- ConfigRegistry::approve_change: a single UPDATE guarded by
`WHERE id = ? AND status = 'pending'`; the call reports success whether
or not any row matched. -/
def approve_change (db : RegistryDb) (change_id : Int) (approval_pr_id : Int)
    (approved_by : String) (now : Int) : Except GovernanceError RegistryDb :=
  .ok { db with
        changes := db.changes.map (fun ch =>
          if ch.id == change_id && ch.status == ConfigChangeStatus.Pending then
            { ch with status := .Approved, approval_pr_id := some approval_pr_id
                      approved_at := some now, approved_by := some approved_by }
          else ch) }

/-- ConfigRegistry::get_change. -/
def get_change (db : RegistryDb) (change_id : Int) : Option ConfigChange :=
  db.changes.find? (fun ch => ch.id == change_id)

/-- A reader cache entry list keyed by config key (the ConfigReader HashMap). -/
abbrev KvList := List (String × Json)

/-- HashMap::get on an association list. -/
def kvLookup (l : KvList) (key : String) : Option Json :=
  (l.find? (fun p => p.1 == key)).map (·.2)

/-- HashMap::insert on an association list: replace the binding when the
key is present, otherwise append it. -/
def kvInsert (l : KvList) (key : String) (v : Json) : KvList :=
  if l.any (fun p => p.1 == key) then
    l.map (fun p => if p.1 == key then (key, v) else p)
  else l ++ [(key, v)]

/-- HashMap::remove on an association list. -/
def kvRemove (l : KvList) (key : String) : KvList :=
  l.filter (fun p => p.1 != key)

/-- ConfigRegistry::activate_change over the store, the attached reader
cache and the reader-attached flag. Mirrors the source order: fetch the
change, require Approved status, update the registry row, mark the change
activated, append one governance_approved history row, then invalidate
the reader cache entry when a reader is attached. `sync_to_yaml` is a
logging placeholder in the source (it performs no state change and its
failure is swallowed), so it contributes nothing here. -/
def activate_change (db : RegistryDb) (reader_cache : KvList)
    (has_reader : Bool) (change_id : Int) (activation_pr_id : Option Int)
    (now : Int) : Except GovernanceError (String × RegistryDb × KvList) :=
  match get_change db change_id with
  | none => .error (.ConfigError "Change not found")
  | some change =>
    if change.status != ConfigChangeStatus.Approved then
      .error (.ConfigError "Change is not approved")
    else
      let config_key := change.config_key
      let entries2 := db.entries.map (fun e =>
        if e.config_key == config_key then
          { e with current_value := change.proposed_value, updated_at := now }
        else e)
      let changes2 := db.changes.map (fun ch =>
        if ch.id == change_id then
          { ch with status := .Activated, activated_at := some now
                    activation_pr_id := activation_pr_id }
        else ch)
      let historyRow : HistoryRow :=
        { config_key := config_key, old_value := change.current_value
          new_value := change.proposed_value, changed_at := now
          changed_by := change.proposed_by, change_id := some change_id
          activation_method := "governance_approved" }
      let db2 := { db with entries := entries2, changes := changes2
                           history := db.history ++ [historyRow] }
      let cache2 := if has_reader then kvRemove reader_cache config_key
                    else reader_cache
      .ok (config_key, db2, cache2)

/-- The `COUNT(*) ... WHERE config_key = ? AND activation_method =
'governance_approved'` check of sync_from_yaml, as a non-emptiness test. -/
def has_governance_history (db : RegistryDb) (config_key : String) : Bool :=
  db.history.any (fun r =>
    r.config_key == config_key && r.activation_method == "governance_approved")

/-- Boolean substring containment (Rust str::contains). -/
def contains_sub (hay needle : String) : Bool :=
  hay.data.tails.any (fun t => needle.data.isPrefixOf t)

/-- Category inference for keys registered by sync_from_yaml. -/
def category_for_key (config_key : String) : ConfigCategory :=
  if contains_sub config_key "tier_" || contains_sub config_key "layer_" ||
     contains_sub config_key "veto_" then .Thresholds
  else if contains_sub config_key "review_period" ||
          contains_sub config_key "duration" ||
          contains_sub config_key "period" then .TimeWindows
  else if contains_sub config_key "max_" || contains_sub config_key "min_" then
    .Limits
  else .Other

/-- One iteration of the sync_from_yaml loop for a single (key, value)
pair from the YAML extraction: if the key exists and the stored value
differs, update it only when the key has no governance_approved history
(recording a yaml_sync history row); if the key is absent, register it. -/
def sync_pair (now : Int) (acc : RegistryDb × Nat) (kv : String × Json) :
    RegistryDb × Nat :=
  match get_config acc.1 kv.1 with
  | some entry =>
    if entry.current_value == kv.2 then acc
    else if has_governance_history acc.1 kv.1 then acc
    else
      let entries2 := acc.1.entries.map (fun e =>
        if e.config_key == kv.1 then
          { e with current_value := kv.2, updated_at := now }
        else e)
      let historyRow : HistoryRow :=
        { config_key := kv.1, old_value := entry.current_value
          new_value := kv.2, changed_at := now, changed_by := "yaml_sync"
          change_id := none, activation_method := "yaml_sync" }
      ({ acc.1 with entries := entries2
                    history := acc.1.history ++ [historyRow] }, acc.2 + 1)
  | none =>
    ((register_config acc.1 kv.1 (category_for_key kv.1) kv.2
      (some ("Synced from YAML: " ++ kv.1)) 5 (some "yaml_sync") now).2,
     acc.2 + 1)

/-- ConfigRegistry::sync_from_yaml over the extracted (key, value) pairs,
returning the updated store and the updated-config count. -/
def sync_from_yaml (db : RegistryDb) (yaml_values : List (String × Json))
    (now : Int) : RegistryDb × Nat :=
  yaml_values.foldl (sync_pair now) (db, 0)

/-- One sub-threshold block of the commons-contributor YAML configuration
(`crate::config::loader::CommonsContributorThresholdsConfig`; the loader
module is not among the given sources, so the fields are reconstructed
from every use site in registry.rs and config_reader.rs). -/
structure YamlThresholdCfg where
  enabled : Bool
  minimum_contribution_btc : Rat
  minimum_sales_btc : Option Rat
  deriving Repr, DecidableEq

/-- Weight-calculation block of the commons-contributor YAML configuration. -/
structure WeightCalculationCfg where
  normalization_factor : Rat
  minimum_weight : Rat
  deriving Repr, DecidableEq

/-- Body of the commons-contributor YAML configuration. -/
structure CommonsThresholds where
  merge_mining : YamlThresholdCfg
  fee_forwarding : YamlThresholdCfg
  zaps : YamlThresholdCfg
  marketplace : YamlThresholdCfg
  measurement_period_days : Nat
  qualification_logic : String
  weight_calculation : WeightCalculationCfg
  deriving Repr, DecidableEq

/-- Top-level commons-contributor YAML configuration wrapper. -/
structure CommonsContributorThresholdsConfig where
  commons_contributor_thresholds : CommonsThresholds
  deriving Repr, DecidableEq

/-- ConfigReader state: the in-memory cache plus the optional YAML
config and YAML loader. The source also stores a cache_ttl field, but no
read path in config_reader.rs consults it, so it has no observable
effect and is omitted. The YAML loader is modelled by its extracted
(key, value) map; `none` also covers the extraction-failure branch,
which the source skips over. -/
structure ConfigReaderState where
  cache : KvList
  yaml_config : Option CommonsContributorThresholdsConfig
  yaml_loader : Option KvList
  deriving Repr, DecidableEq

/-- ConfigReader::get_value: cache, then registry (caching the hit), then
the YAML loader (caching the hit), then none. -/
def get_value (db : RegistryDb) (rd : ConfigReaderState) (key : String) :
    Option Json × ConfigReaderState :=
  match kvLookup rd.cache key with
  | some v => (some v, rd)
  | none =>
    match get_current_value db key with
    | some v => (some v, { rd with cache := kvInsert rd.cache key v })
    | none =>
      match rd.yaml_loader with
      | some yaml_values =>
        match kvLookup yaml_values key with
        | some v => (some v, { rd with cache := kvInsert rd.cache key v })
        | none => (none, rd)
      | none => (none, rd)

/-- ConfigReader::get_i32: fallback when the key is absent, ConfigError
when the present value coerces neither as i64 nor as u64. -/
def get_i32 (db : RegistryDb) (rd : ConfigReaderState) (key : String)
    (fallback : Int) : Except GovernanceError (Int × ConfigReaderState) :=
  match get_value db rd key with
  | (some v, rd2) =>
    match v.as_i64.orElse (fun _ => v.as_u64) with
    | some n => .ok (n, rd2)
    | none => .error (.ConfigError ("Config " ++ key ++ " is not a valid integer"))
  | (none, rd2) => .ok (fallback, rd2)

/-- ConfigReader::get_u32. -/
def get_u32 (db : RegistryDb) (rd : ConfigReaderState) (key : String)
    (fallback : Int) : Except GovernanceError (Int × ConfigReaderState) :=
  match get_value db rd key with
  | (some v, rd2) =>
    match v.as_u64.orElse (fun _ => v.as_i64) with
    | some n => .ok (n, rd2)
    | none =>
      .error (.ConfigError ("Config " ++ key ++ " is not a valid unsigned integer"))
  | (none, rd2) => .ok (fallback, rd2)

/-- ConfigReader::get_f64. -/
def get_f64 (db : RegistryDb) (rd : ConfigReaderState) (key : String)
    (fallback : Rat) : Except GovernanceError (Rat × ConfigReaderState) :=
  match get_value db rd key with
  | (some v, rd2) =>
    match v.as_f64.orElse (fun _ =>
        (v.as_i64.map (fun n => (n : Rat))).orElse (fun _ =>
          v.as_u64.map (fun n => (n : Rat)))) with
    | some q => .ok (q, rd2)
    | none => .error (.ConfigError ("Config " ++ key ++ " is not a valid float"))
  | (none, rd2) => .ok (fallback, rd2)

/-- ConfigReader::get_bool. -/
def get_bool (db : RegistryDb) (rd : ConfigReaderState) (key : String)
    (fallback : Bool) : Except GovernanceError (Bool × ConfigReaderState) :=
  match get_value db rd key with
  | (some v, rd2) =>
    match v.as_bool with
    | some b => .ok (b, rd2)
    | none => .error (.ConfigError ("Config " ++ key ++ " is not a valid boolean"))
  | (none, rd2) => .ok (fallback, rd2)

/-- ConfigReader::get_string. -/
def get_string (db : RegistryDb) (rd : ConfigReaderState) (key : String)
    (fallback : String) : Except GovernanceError (String × ConfigReaderState) :=
  match get_value db rd key with
  | (some v, rd2) =>
    match v.as_str with
    | some s => .ok (s, rd2)
    | none => .error (.ConfigError ("Config " ++ key ++ " is not a valid string"))
  | (none, rd2) => .ok (fallback, rd2)

/-- Rust str::split_once on character lists: split at the first
occurrence of the separator. -/
def split_once_list (sep : List Char) : List Char → Option (List Char × List Char)
  | [] => if sep.isEmpty then some ([], []) else none
  | c :: rest =>
    if sep.isPrefixOf (c :: rest) then some ([], (c :: rest).drop sep.length)
    else (split_once_list sep rest).map (fun p => (c :: p.1, p.2))

/-- Rust str::split_once on strings. -/
def split_once (s sep : String) : Option (String × String) :=
  (split_once_list sep.data s.data).map
    (fun p => (String.mk p.1, String.mk p.2))

/-- Rust u32::from_str: optional leading plus sign, at least one digit,
all digits, value within u32 range. -/
def parse_u32 (s : String) : Option Nat :=
  let digits := if s.startsWith "+" then (s.drop 1).data else s.data
  if digits.isEmpty then none
  else if digits.all Char.isDigit then
    let n := digits.foldl (fun acc c => acc * 10 + (c.toNat - 48)) 0
    if n < 4294967296 then some n else none
  else none

/-- ConfigReader::get_threshold_pair: read the value as a string with an
empty-string default, return the fallback on the empty string, parse the
N-of-M format when the separator is present (erroring when N or M fails
to parse), and fall back with a warning when the separator is absent. -/
def get_threshold_pair (db : RegistryDb) (rd : ConfigReaderState)
    (key : String) (fallback : Nat × Nat) :
    Except GovernanceError ((Nat × Nat) × ConfigReaderState) := do
  let (s, rd2) ← get_string db rd key ""
  if s.isEmpty then .ok (fallback, rd2)
  else
    match split_once s "-of-" with
    | some (nStr, mStr) =>
      match parse_u32 nStr with
      | none =>
        .error (.ConfigError ("Invalid threshold format in " ++ key ++ ": cannot parse N"))
      | some n =>
        match parse_u32 mStr with
        | none =>
          .error (.ConfigError ("Invalid threshold format in " ++ key ++ ": cannot parse M"))
        | some m => .ok ((n, m), rd2)
    | none => .ok (fallback, rd2)

/-- ConfigReader::invalidate_key. -/
def invalidate_key (rd : ConfigReaderState) (key : String) : ConfigReaderState :=
  { rd with cache := kvRemove rd.cache key }

/-- ConfigReader::get_commons_contributor_threshold: registry value when
positive (a registry read error is swallowed), then the YAML config,
then hardcoded defaults; unknown threshold types are ConfigErrors. -/
def get_commons_contributor_threshold (db : RegistryDb)
    (rd : ConfigReaderState) (threshold_type : String) :
    Except GovernanceError (Rat × ConfigReaderState) :=
  let key := "commons_contributor_min_" ++ threshold_type ++ "_btc"
  let fromYamlOrDefault : ConfigReaderState →
      Except GovernanceError (Rat × ConfigReaderState) := fun rd2 =>
    match rd2.yaml_config with
    | some yaml =>
      let thresholds := yaml.commons_contributor_thresholds
      match threshold_type with
      | "merge_mining" => .ok (thresholds.merge_mining.minimum_contribution_btc, rd2)
      | "fee_forwarding" => .ok (thresholds.fee_forwarding.minimum_contribution_btc, rd2)
      | "zaps" => .ok (thresholds.zaps.minimum_contribution_btc, rd2)
      | "marketplace" => .ok (thresholds.marketplace.minimum_contribution_btc, rd2)
      | _ => .error (.ConfigError ("Unknown threshold type: " ++ threshold_type))
    | none =>
      match threshold_type with
      | "merge_mining" => .ok ((1 : Rat) / 100, rd2)
      | "fee_forwarding" => .ok ((1 : Rat) / 10, rd2)
      | "zaps" => .ok ((1 : Rat) / 100, rd2)
      | "marketplace" => .ok ((1 : Rat) / 100, rd2)
      | _ => .error (.ConfigError ("Unknown threshold type: " ++ threshold_type))
  match get_f64 db rd key 0 with
  | .ok (v, rd2) => if 0 < v then .ok (v, rd2) else fromYamlOrDefault rd2
  | .error _ => fromYamlOrDefault rd

/-- ConfigReader::get_commons_contributor_measurement_period: positive
registry value, then the YAML config, then 90 days. -/
def get_commons_contributor_measurement_period (db : RegistryDb)
    (rd : ConfigReaderState) :
    Except GovernanceError (Int × ConfigReaderState) :=
  match get_u32 db rd "commons_contributor_measurement_period_days" 0 with
  | .ok (v, rd2) =>
    if 0 < v then .ok (v, rd2)
    else
      match rd2.yaml_config with
      | some yaml =>
        .ok ((yaml.commons_contributor_thresholds.measurement_period_days : Int), rd2)
      | none => .ok (90, rd2)
  | .error _ =>
    match rd.yaml_config with
    | some yaml =>
      .ok ((yaml.commons_contributor_thresholds.measurement_period_days : Int), rd)
    | none => .ok (90, rd)

/-- NodeType (economic_nodes/types.rs, reconstructed from its use sites). -/
inductive NodeType where
  | MiningPool | Exchange | Custodian | MajorHolder | CommonsContributor
  deriving Repr, DecidableEq

/-- HashpowerProof, fields from the use sites in registry.rs. -/
structure HashpowerProof where
  blocks_mined : List String
  time_period_days : Nat
  total_network_blocks : Nat
  percentage : Rat
  deriving Repr, DecidableEq

/-- HoldingsProof. -/
structure HoldingsProof where
  addresses : List String
  total_btc : Rat
  signature_challenge : String
  deriving Repr, DecidableEq

/-- VolumeProof. -/
structure VolumeProof where
  daily_volume_btc : Rat
  monthly_volume_btc : Rat
  transaction_hashes : List String
  deriving Repr, DecidableEq

/-- MergeMiningProof. -/
structure MergeMiningProof where
  total_revenue_btc : Rat
  period_days : Nat
  blocks_mined : List String
  deriving Repr, DecidableEq

/-- FeeForwardingProof. -/
structure FeeForwardingProof where
  total_fees_forwarded_btc : Rat
  period_days : Nat
  blocks_with_forwarding : List String
  deriving Repr, DecidableEq

/-- ZapProof. -/
structure ZapProof where
  total_zaps_btc : Rat
  period_days : Nat
  zap_events : List String
  deriving Repr, DecidableEq

/-- MarketplaceSalesProof. -/
structure MarketplaceSalesProof where
  total_sales_btc : Rat
  period_days : Nat
  module_payments : List String
  deriving Repr, DecidableEq

/-- TreasurySalesProof (USD-denominated). -/
structure TreasurySalesProof where
  total_sales_usd : Rat
  deriving Repr, DecidableEq

/-- ServiceSalesProof (USD-denominated). -/
structure ServiceSalesProof where
  total_sales_usd : Rat
  deriving Repr, DecidableEq

/-- CommonsContributorProof: the bundle of optional sub-proofs. -/
structure CommonsContributorProof where
  merge_mining_proof : Option MergeMiningProof
  fee_forwarding_proof : Option FeeForwardingProof
  zap_proof : Option ZapProof
  marketplace_sales_proof : Option MarketplaceSalesProof
  treasury_sales_proof : Option TreasurySalesProof
  service_sales_proof : Option ServiceSalesProof
  deriving Repr, DecidableEq

/-- ContactInfo. -/
structure ContactInfo where
  entity_name : String
  contact_email : String
  website : Option String
  github_username : Option String
  deriving Repr, DecidableEq

/-- QualificationProof: the tagged qualification payload. -/
structure QualificationProof where
  node_type : NodeType
  hashpower_proof : Option HashpowerProof
  holdings_proof : Option HoldingsProof
  volume_proof : Option VolumeProof
  commons_contributor_proof : Option CommonsContributorProof
  contact_info : ContactInfo
  deriving Repr, DecidableEq

/-- Per-node-type qualification thresholds
(NodeType::qualification_thresholds in economic_nodes/types.rs). -/
structure QualificationThresholds where
  minimum_hashpower_percent : Option Rat
  minimum_holdings_btc : Option Int
  minimum_volume_btc : Option Rat
  deriving Repr, DecidableEq

/-- Modelled from the spec: `NodeType::qualification_thresholds` lives in
`economic_nodes/types.rs`, which is not among the given sources; only its
callers are. Per spec section 4.3 MiningPool requires a minimum hashpower
percentage (1%, per the registry tests: 0.5% fails, 5% passes the
threshold described as coming from types.rs), Exchange requires minimum
holdings and daily volume (10000 BTC and 100 BTC per the registry tests),
Custodian and MajorHolder require minimum holdings (magnitudes not fixed
by the sources; no claim depends on them), and CommonsContributor is
judged solely by the sub-threshold machinery. -/
def qualification_thresholds : NodeType → QualificationThresholds
  | .MiningPool => { minimum_hashpower_percent := some 1
                     minimum_holdings_btc := none, minimum_volume_btc := none }
  | .Exchange => { minimum_hashpower_percent := none
                   minimum_holdings_btc := some 10000
                   minimum_volume_btc := some 100 }
  | .Custodian => { minimum_hashpower_percent := none
                    minimum_holdings_btc := some 1000
                    minimum_volume_btc := none }
  | .MajorHolder => { minimum_hashpower_percent := none
                      minimum_holdings_btc := some 1000
                      minimum_volume_btc := none }
  | .CommonsContributor => { minimum_hashpower_percent := none
                             minimum_holdings_btc := none
                             minimum_volume_btc := none }

/-- Modelled from the spec: adaptive parameters returned by the phase
calculator (section 4.2); `phase_calculator.rs` is not among the given
sources. Only the mining-pool weight cap is consumed by the registry. -/
structure AdaptiveParameters where
  mining_pool_weight_cap : Rat
  deriving Repr, DecidableEq

/-- The EconomicNodeRegistry handle: its optional collaborators and the
two external primitives it consumes. The phase calculator is represented
by the outcome its `get_adaptive_parameters()` call would produce
(phase_calculator.rs is not among the sources); the BTC price service by
its `get_moving_average()` result; `SignatureValidator::verify_signature`
and `f64::sqrt` are explicit function parameters. -/
structure EconomicNodeRegistry where
  commons_contributor_thresholds : Option CommonsContributorThresholdsConfig
  config_reader : Option (RegistryDb × ConfigReaderState)
  phase_calculator : Option (Except GovernanceError AdaptiveParameters)
  btc_price_service : Option Rat
  verify_signature : String → String → String → Except GovernanceError Bool
  sqrt_f64 : Rat → Rat

/-- Commons-contributor qualification through the ConfigReader
(verify_commons_contributor_with_config_reader): resolve the measurement
period and the four thresholds, collect the satisfied non-zero-threshold
categories, and combine them with the configured logic mode (AND
additionally requires at least one enabled threshold). -/
def verify_commons_contributor_with_config_reader (db : RegistryDb)
    (rd : ConfigReaderState) (qualification_data : QualificationProof) :
    Except GovernanceError Bool :=
  match qualification_data.commons_contributor_proof with
  | none => .ok false
  | some proof => do
    let (measurement_period, rd) ← get_commons_contributor_measurement_period db rd
    let (merge_mining_threshold, rd) ←
      get_commons_contributor_threshold db rd "merge_mining"
    let met_merge : List String :=
      if 0 < merge_mining_threshold then
        match proof.merge_mining_proof with
        | some merge_proof =>
          if merge_mining_threshold ≤ merge_proof.total_revenue_btc ∧
             measurement_period ≤ (merge_proof.period_days : Int) then
            ["merge_mining"]
          else []
        | none => []
      else []
    let (fee_forwarding_threshold, rd) ←
      get_commons_contributor_threshold db rd "fee_forwarding"
    let met_fee : List String :=
      if 0 < fee_forwarding_threshold then
        match proof.fee_forwarding_proof with
        | some fee_proof =>
          if fee_forwarding_threshold ≤ fee_proof.total_fees_forwarded_btc ∧
             measurement_period ≤ (fee_proof.period_days : Int) then
            ["fee_forwarding"]
          else []
        | none => []
      else []
    let (zap_threshold, rd) ← get_commons_contributor_threshold db rd "zaps"
    let met_zaps : List String :=
      if 0 < zap_threshold then
        match proof.zap_proof with
        | some zap_proof =>
          if zap_threshold ≤ zap_proof.total_zaps_btc ∧
             measurement_period ≤ (zap_proof.period_days : Int) then
            ["zaps"]
          else []
        | none => []
      else []
    let (marketplace_threshold, rd) ←
      get_commons_contributor_threshold db rd "marketplace"
    let met_marketplace : List String :=
      if 0 < marketplace_threshold then
        match proof.marketplace_sales_proof with
        | some marketplace_proof =>
          if marketplace_threshold ≤ marketplace_proof.total_sales_btc ∧
             measurement_period ≤ (marketplace_proof.period_days : Int) then
            ["marketplace"]
          else []
        | none => []
      else []
    let qualifications_met := met_merge ++ met_fee ++ met_zaps ++ met_marketplace
    let (qualification_logic, _) ←
      get_string db rd "commons_contributor_qualification_logic" "OR"
    let qualified :=
      match qualification_logic with
      | "OR" => !qualifications_met.isEmpty
      | "AND" =>
        let enabled_count :=
          ([decide (0 < merge_mining_threshold),
            decide (0 < fee_forwarding_threshold),
            decide (0 < zap_threshold),
            decide (0 < marketplace_threshold)].filter (fun b => b)).length
        qualifications_met.length == enabled_count && 0 < enabled_count
      | _ => !qualifications_met.isEmpty
    .ok qualified

/-- Fallback commons-contributor verification with hardcoded defaults
(verify_commons_contributor_defaults): OR over merge mining (0.01 BTC /
90 days), fee forwarding (0.1 BTC / 90 days) and zaps (0.01 BTC / 90
days). -/
def verify_commons_contributor_defaults
    (qualification_data : QualificationProof) : Except GovernanceError Bool :=
  match qualification_data.commons_contributor_proof with
  | none => .ok false
  | some proof =>
    let met_merge : List String :=
      match proof.merge_mining_proof with
      | some merge_proof =>
        if (1 : Rat) / 100 ≤ merge_proof.total_revenue_btc ∧
           90 ≤ merge_proof.period_days then ["merge_mining"] else []
      | none => []
    let met_fee : List String :=
      match proof.fee_forwarding_proof with
      | some fee_proof =>
        if (1 : Rat) / 10 ≤ fee_proof.total_fees_forwarded_btc ∧
           90 ≤ fee_proof.period_days then ["fee_forwarding"] else []
      | none => []
    let met_zaps : List String :=
      match proof.zap_proof with
      | some zap_proof =>
        if (1 : Rat) / 100 ≤ zap_proof.total_zaps_btc ∧
           90 ≤ zap_proof.period_days then ["zaps"] else []
      | none => []
    .ok (!(met_merge ++ met_fee ++ met_zaps).isEmpty)

/-- Commons-contributor qualification dispatch plus the legacy YAML path
(verify_commons_contributor_qualification): the ConfigReader path is
preferred, then the loaded YAML thresholds, then the hardcoded defaults.
The YAML path collects the satisfied enabled categories and combines
them with the configured logic mode; the AND branch only compares the
counts, so with zero enabled thresholds it is vacuously satisfied. -/
def verify_commons_contributor_qualification (reg : EconomicNodeRegistry)
    (qualification_data : QualificationProof) : Except GovernanceError Bool :=
  match reg.config_reader with
  | some (db, rd) =>
    verify_commons_contributor_with_config_reader db rd qualification_data
  | none =>
    match reg.commons_contributor_thresholds with
    | none => verify_commons_contributor_defaults qualification_data
    | some config =>
      let thresholds_config := config.commons_contributor_thresholds
      match qualification_data.commons_contributor_proof with
      | none => .ok false
      | some proof =>
        let met_merge : List String :=
          if thresholds_config.merge_mining.enabled then
            match proof.merge_mining_proof with
            | some merge_proof =>
              if thresholds_config.merge_mining.minimum_contribution_btc ≤
                   merge_proof.total_revenue_btc ∧
                 thresholds_config.measurement_period_days ≤
                   merge_proof.period_days then ["merge_mining"] else []
            | none => []
          else []
        let met_fee : List String :=
          if thresholds_config.fee_forwarding.enabled then
            match proof.fee_forwarding_proof with
            | some fee_proof =>
              if thresholds_config.fee_forwarding.minimum_contribution_btc ≤
                   fee_proof.total_fees_forwarded_btc ∧
                 thresholds_config.measurement_period_days ≤
                   fee_proof.period_days then ["fee_forwarding"] else []
            | none => []
          else []
        let met_zaps : List String :=
          if thresholds_config.zaps.enabled then
            match proof.zap_proof with
            | some zap_proof =>
              if thresholds_config.zaps.minimum_contribution_btc ≤
                   zap_proof.total_zaps_btc ∧
                 thresholds_config.measurement_period_days ≤
                   zap_proof.period_days then ["zaps"] else []
            | none => []
          else []
        let met_marketplace : List String :=
          if thresholds_config.marketplace.enabled then
            match proof.marketplace_sales_proof with
            | some marketplace_proof =>
              if (thresholds_config.marketplace.minimum_sales_btc.getD 0) ≤
                   marketplace_proof.total_sales_btc ∧
                 thresholds_config.measurement_period_days ≤
                   marketplace_proof.period_days then ["marketplace"] else []
            | none => []
          else []
        let qualifications_met :=
          met_merge ++ met_fee ++ met_zaps ++ met_marketplace
        let qualified :=
          match thresholds_config.qualification_logic with
          | "OR" => !qualifications_met.isEmpty
          | "AND" =>
            let enabled_count :=
              ([thresholds_config.merge_mining.enabled,
                thresholds_config.fee_forwarding.enabled,
                thresholds_config.zaps.enabled,
                thresholds_config.marketplace.enabled].filter
                (fun b => b)).length
            qualifications_met.length == enabled_count
          | _ => !qualifications_met.isEmpty
        .ok qualified

/-- EconomicNodeRegistry::verify_qualification: the category-specific
threshold gates, in source order (hashpower, holdings, volume, then the
commons-contributor machinery), each returning false on a missing or
insufficient proof. -/
def verify_qualification (reg : EconomicNodeRegistry) (node_type : NodeType)
    (qualification_data : QualificationProof) : Except GovernanceError Bool :=
  let thresholds := qualification_thresholds node_type
  let hashpower_ok :=
    match thresholds.minimum_hashpower_percent with
    | none => true
    | some min_hashpower =>
      match qualification_data.hashpower_proof with
      | none => false
      | some hashpower_proof =>
        if hashpower_proof.percentage < min_hashpower then false else true
  let holdings_ok :=
    match thresholds.minimum_holdings_btc with
    | none => true
    | some min_holdings =>
      match qualification_data.holdings_proof with
      | none => false
      | some holdings_proof =>
        if holdings_proof.total_btc < (min_holdings : Rat) then false else true
  let volume_ok :=
    match thresholds.minimum_volume_btc with
    | none => true
    | some min_volume =>
      match qualification_data.volume_proof with
      | none => false
      | some volume_proof =>
        let volume := if node_type = NodeType.Exchange then
            volume_proof.daily_volume_btc
          else volume_proof.monthly_volume_btc
        if volume < min_volume then false else true
  if !hashpower_ok then .ok false
  else if !holdings_ok then .ok false
  else if !volume_ok then .ok false
  else if node_type = NodeType.CommonsContributor then
    verify_commons_contributor_qualification reg qualification_data
  else .ok true

/-- EconomicNodeRegistry::verify_cryptographic_proofs: structural
verification for mining pools (non-empty mined-block list), a signature
challenge over public_key || "||" || comma-joined addresses for the
holdings categories, and for commons contributors the requirement that
every present sub-proof structurally verifies with at least one present. -/
def verify_cryptographic_proofs (reg : EconomicNodeRegistry)
    (node_type : NodeType) (qualification_data : QualificationProof)
    (public_key : String) : Except GovernanceError Bool :=
  match node_type with
  | .MiningPool =>
    match qualification_data.hashpower_proof with
    | some hashpower_proof => .ok (!hashpower_proof.blocks_mined.isEmpty)
    | none => .ok false
  | .Exchange | .Custodian | .MajorHolder =>
    match qualification_data.holdings_proof with
    | some holdings_proof =>
      if holdings_proof.addresses.isEmpty then .ok false
      else do
        let challenge_message :=
          public_key ++ "||" ++ String.intercalate "," holdings_proof.addresses
        let verified ← reg.verify_signature challenge_message
          holdings_proof.signature_challenge public_key
        if !verified then .ok false else .ok true
    | none => .ok false
  | .CommonsContributor =>
    match qualification_data.commons_contributor_proof with
    | some commons_proof =>
      let merge_counts :=
        match commons_proof.merge_mining_proof with
        | some merge_proof =>
          (1, if merge_proof.blocks_mined.isEmpty then 0 else 1)
        | none => ((0 : Nat), (0 : Nat))
      let fee_counts :=
        match commons_proof.fee_forwarding_proof with
        | some fee_proof =>
          (1, if fee_proof.blocks_with_forwarding.isEmpty then 0 else 1)
        | none => ((0 : Nat), (0 : Nat))
      let zap_counts :=
        match commons_proof.zap_proof with
        | some zap_proof => (1, if zap_proof.zap_events.isEmpty then 0 else 1)
        | none => ((0 : Nat), (0 : Nat))
      let marketplace_counts :=
        match commons_proof.marketplace_sales_proof with
        | some marketplace_proof =>
          (1, if marketplace_proof.module_payments.isEmpty then 0 else 1)
        | none => ((0 : Nat), (0 : Nat))
      let proofs_required := merge_counts.1 + fee_counts.1 + zap_counts.1 +
        marketplace_counts.1
      let proofs_verified := merge_counts.2 + fee_counts.2 + zap_counts.2 +
        marketplace_counts.2
      .ok (decide (0 < proofs_verified ∧ proofs_verified = proofs_required))
    | none => .ok false

/-- EconomicNodeRegistry::calculate_commons_contributor_weight: sum the
BTC-denominated contributions, convert USD sales with the moving-average
BTC price (default 50000), apply the quadratic formula and the
configured minimum weight (default 0.01). -/
def calculate_commons_contributor_weight (reg : EconomicNodeRegistry)
    (qualification_data : QualificationProof) : Except GovernanceError Rat :=
  match qualification_data.commons_contributor_proof with
  | none => .error (.CryptoError "Commons contributor proof required")
  | some proof =>
    let normalization_factor :=
      match reg.commons_contributor_thresholds with
      | some c => c.commons_contributor_thresholds.weight_calculation.normalization_factor
      | none => 1
    let total_after_btc :=
      ((proof.merge_mining_proof.map (·.total_revenue_btc)).getD 0) +
      ((proof.fee_forwarding_proof.map (·.total_fees_forwarded_btc)).getD 0) +
      ((proof.zap_proof.map (·.total_zaps_btc)).getD 0)
    let btc_price_ma :=
      match reg.btc_price_service with
      | some price => price
      | none => 50000
    let total_contribution_btc := total_after_btc +
      ((proof.marketplace_sales_proof.map (·.total_sales_btc)).getD 0) +
      ((proof.treasury_sales_proof.map
        (fun t => t.total_sales_usd / btc_price_ma)).getD 0) +
      ((proof.service_sales_proof.map
        (fun s => s.total_sales_usd / btc_price_ma)).getD 0)
    let weight := reg.sqrt_f64 (total_contribution_btc / normalization_factor)
    let min_weight :=
      match reg.commons_contributor_thresholds with
      | some c => c.commons_contributor_thresholds.weight_calculation.minimum_weight
      | none => (1 : Rat) / 100
    .ok (max weight min_weight)

/-- EconomicNodeRegistry::calculate_weight: the per-category weight
formulas. MiningPool caps hashpower/100 with the phase-based cap when
the phase calculator is available and its adaptive-parameter lookup
succeeds; Exchange scores 0.7 x holdings band + 0.3 x daily-volume band
treating an absent proof as a zero term; Custodian and MajorHolder
normalize holdings by 10000 and 5000 BTC and error without a holdings
proof; CommonsContributor uses the quadratic formula. -/
def calculate_weight (reg : EconomicNodeRegistry) (node_type : NodeType)
    (qualification_data : QualificationProof) : Except GovernanceError Rat :=
  match node_type with
  | .MiningPool =>
    match qualification_data.hashpower_proof with
    | none => .error (.CryptoError "Hashpower proof required for mining pools")
    | some hashpower_proof =>
      let base_weight := hashpower_proof.percentage / 100
      let capped_weight :=
        match reg.phase_calculator with
        | some (.ok adaptive_params) =>
          min base_weight adaptive_params.mining_pool_weight_cap
        | some (.error _) => base_weight
        | none => base_weight
      .ok capped_weight
  | .Exchange =>
    let holdings_weight :=
      match qualification_data.holdings_proof with
      | some holdings_proof =>
        (min (holdings_proof.total_btc / 10000) 1) * ((7 : Rat) / 10)
      | none => 0
    let volume_weight :=
      match qualification_data.volume_proof with
      | some volume_proof =>
        (min (volume_proof.daily_volume_btc / 100) 1) * ((3 : Rat) / 10)
      | none => 0
    .ok (holdings_weight + volume_weight)
  | .Custodian =>
    match qualification_data.holdings_proof with
    | some holdings_proof => .ok (min (holdings_proof.total_btc / 10000) 1)
    | none => .error (.CryptoError "Holdings proof required for custodians")
  | .MajorHolder =>
    match qualification_data.holdings_proof with
    | some holdings_proof => .ok (min (holdings_proof.total_btc / 5000) 1)
    | none => .error (.CryptoError "Holdings proof required for major holders")
  | .CommonsContributor =>
    calculate_commons_contributor_weight reg qualification_data

/-- One row of the economic_nodes table. The qualification blob is kept
structured (JSON round-tripping is lossless). -/
structure EconomicNodeRow where
  id : Int
  node_type : NodeType
  entity_name : String
  public_key : String
  qualification_data : QualificationProof
  weight : Rat
  status : String
  registered_at : Int
  verified_at : Option Int
  created_by : Option String
  deriving Repr, DecidableEq

/-- EconomicNodeRegistry::register_economic_node: reject a duplicate
public key, require the qualification thresholds, then require the
cryptographic proofs (returning an error when they fail — which makes
the later pending-status branch unreachable), compute the weight, and
insert the row with the status derived from crypto_verified. -/
def register_economic_node (reg : EconomicNodeRegistry)
    (nodes : List EconomicNodeRow) (node_type : NodeType)
    (entity_name : String) (public_key : String)
    (qualification_data : QualificationProof) (created_by : Option String)
    (now : Int) : Except GovernanceError (Int × List EconomicNodeRow) := do
  if nodes.any (fun n => n.public_key == public_key) then
    .error (.CryptoError
      ("Node with public key " ++ public_key ++ " already registered"))
  else do
    let verified ← verify_qualification reg node_type qualification_data
    if !verified then
      .error (.CryptoError "Node does not meet qualification thresholds")
    else do
      let crypto_verified ←
        verify_cryptographic_proofs reg node_type qualification_data public_key
      if !crypto_verified then
        .error (.CryptoError "Cryptographic proof verification failed")
      else do
        let weight ← calculate_weight reg node_type qualification_data
        let status := if crypto_verified then "active" else "pending"
        let node_id : Int := (nodes.length : Int) + 1
        let row : EconomicNodeRow :=
          { id := node_id, node_type := node_type, entity_name := entity_name
            public_key := public_key
            qualification_data := qualification_data, weight := weight
            status := status, registered_at := now
            verified_at := if crypto_verified then some now else none
            created_by := created_by }
        .ok (node_id, nodes ++ [row])

/-- Timestamped id lists: both layers of the deduplicator are maps from
message id to the time it was recorded. Time is `Int` seconds. -/
abbrev TsList := List (String × Int)

/-- Deduplicator state: the in-memory cache and the persisted
received_p2p_messages table. -/
structure DedupState where
  cache : TsList
  db : TsList
  deriving Repr, DecidableEq

/-- The deduplication TTL, Duration::hours(24), in seconds. -/
def dedup_ttl : Int := 86400

/-- Lookup of a message id in a timestamped list. -/
def tsLookup (l : TsList) (message_id : String) : Option Int :=
  (l.find? (fun p => p.1 == message_id)).map (·.2)

/-- Keyed upsert: HashMap::insert / INSERT OR REPLACE on message_id. -/
def tsUpsert (l : TsList) (message_id : String) (ts : Int) : TsList :=
  if l.any (fun p => p.1 == message_id) then
    l.map (fun p => if p.1 == message_id then (message_id, ts) else p)
  else l ++ [(message_id, ts)]

/-- MessageDeduplicator::is_duplicate: a fresh cache entry answers true;
otherwise (including a stale cache entry) the persisted store is
consulted for a row within the TTL. -/
def is_duplicate (st : DedupState) (now : Int) (message_id : String) : Bool :=
  let db_check := st.db.any (fun p =>
    p.1 == message_id && decide (now - dedup_ttl < p.2))
  match tsLookup st.cache message_id with
  | some ts => if now - ts < dedup_ttl then true else db_check
  | none => db_check

/-- MessageDeduplicator::mark_processed: record the id with the current
time in both layers. -/
def mark_processed (st : DedupState) (now : Int) (message_id : String) :
    DedupState :=
  { cache := tsUpsert st.cache message_id now
    db := tsUpsert st.db message_id now }

/-- MessageDeduplicator::cleanup: the cache retains entries strictly
newer than the cutoff; the store deletes entries strictly older than the
cutoff. -/
def cleanup (st : DedupState) (now : Int) : DedupState :=
  let cutoff := now - dedup_ttl
  { cache := st.cache.filter (fun p => decide (cutoff < p.2))
    db := st.db.filter (fun p => !decide (p.2 < cutoff)) }

/-! Shared helper lemmas about the association-list operations. -/

/-- find? over a map whose function preserves the tested key predicate. -/
theorem find_map_of_pred_invariant {α : Type} (p : α → Bool) (f : α → α)
    (l : List α) (hf : ∀ a, p (f a) = p a) :
    (l.map f).find? p = (l.find? p).map f := by
  induction l with
  | nil => rfl
  | cons a t ih =>
    by_cases h : p a = true
    · simp [List.find?, hf, h]
    · have h2 : p a = false := by
        cases hp : p a
        · rfl
        · exact absurd hp h
      simp [List.find?, hf, h2, ih]

/-- find? over an identity-on-matches map is unchanged on the found
element when the function fixes every element satisfying the predicate. -/
theorem find_map_fixed {α : Type} (p : α → Bool) (f : α → α) (l : List α)
    (hf : ∀ a, p (f a) = p a) (hfix : ∀ a ∈ l, p a = true → f a = a) :
    (l.map f).find? p = l.find? p := by
  induction l with
  | nil => rfl
  | cons a t ih =>
    by_cases h : p a = true
    · simp [List.find?, hf, h, hfix a (List.mem_cons_self a t) h]
    · have h2 : p a = false := by
        cases hp : p a
        · rfl
        · exact absurd hp h
      have ih2 := ih (fun x hx hpx => hfix x (List.mem_cons_of_mem a hx) hpx)
      simp [List.find?, hf, h2, ih2]

/-- find? over an append when the left part finds something. -/
theorem find_append_left {α : Type} (p : α → Bool) (l r : List α) (a : α)
    (h : l.find? p = some a) : (l ++ r).find? p = some a := by
  induction l with
  | nil => simp [List.find?] at h
  | cons x t ih =>
    by_cases hx : p x = true
    · have hh : (x :: t).find? p = some x := by simp [List.find?, hx]
      rw [hh] at h
      rw [List.cons_append]
      have hh2 : (x :: (t ++ r)).find? p = some x := by simp [List.find?, hx]
      rw [hh2]
      exact h
    · have h2 : p x = false := by
        cases hp : p x
        · rfl
        · exact absurd hp hx
      have hh : (x :: t).find? p = t.find? p := by simp [List.find?, h2]
      rw [hh] at h
      rw [List.cons_append]
      have hh2 : (x :: (t ++ r)).find? p = (t ++ r).find? p := by
        simp [List.find?, h2]
      rw [hh2]
      exact ih h

/-- any is monotone along an append. -/
theorem any_append_left {α : Type} (p : α → Bool) (l r : List α)
    (h : l.any p = true) : (l ++ r).any p = true := by
  simp only [List.any_append]
  simp [h]

/-- map with a function fixing every element is the identity. -/
theorem map_id_of_fixed {α : Type} (f : α → α) (l : List α)
    (h : ∀ a ∈ l, f a = a) : l.map f = l := by
  induction l with
  | nil => rfl
  | cons a t ih =>
    simp [h a (List.mem_cons_self a t),
          ih (fun x hx => h x (List.mem_cons_of_mem a hx))]

/-- Decidable equality of Except results, so concrete runs can be
checked by decide. -/
instance exceptDecEq {ε α : Type} [DecidableEq ε] [DecidableEq α] :
    DecidableEq (Except ε α)
  | .ok x, .ok y =>
    if h : x = y then isTrue (by rw [h])
    else isFalse (by intro hh; injection hh; contradiction)
  | .ok _, .error _ => isFalse (by intro h; exact Except.noConfusion h)
  | .error _, .ok _ => isFalse (by intro h; exact Except.noConfusion h)
  | .error e, .error f =>
    if h : e = f then isTrue (by rw [h])
    else isFalse (by intro hh; injection hh; contradiction)

/-! Concrete fixtures used by the claim theorems and their witnesses. -/

/-- A signature primitive that accepts everything (the external verifier
is out of scope; registration flows that do not reach it are unaffected). -/
def sig_accept : String → String → String → Except GovernanceError Bool :=
  fun _ _ _ => .ok true

/-- A registry handle wired like `EconomicNodeRegistry::new`: no YAML
thresholds, no reader, a phase calculator whose adaptive parameters
resolve to the early-phase 10% mining-pool cap. -/
def test_registry : EconomicNodeRegistry :=
  { commons_contributor_thresholds := none
    config_reader := none
    phase_calculator := some (.ok { mining_pool_weight_cap := (1 : Rat) / 10 })
    btc_price_service := none
    verify_signature := sig_accept
    sqrt_f64 := fun q => q }

/-- Contact block shared by the fixture qualifications. -/
def test_contact : ContactInfo :=
  { entity_name := "Test Pool", contact_email := "test@example.com"
    website := none, github_username := none }

/-- A mining-pool qualification with the given mined blocks and
hashpower percentage, mirroring the registry test fixture. -/
def mining_qualification (blocks : List String) (percentage : Rat) :
    QualificationProof :=
  { node_type := .MiningPool
    hashpower_proof := some { blocks_mined := blocks, time_period_days := 30
                              total_network_blocks := 100
                              percentage := percentage }
    holdings_proof := none, volume_proof := none
    commons_contributor_proof := none, contact_info := test_contact }

/-- An exchange qualification carrying no proof sub-structures at all. -/
def exchange_no_proofs : QualificationProof :=
  { node_type := .Exchange, hashpower_proof := none, holdings_proof := none
    volume_proof := none, commons_contributor_proof := none
    contact_info := test_contact }

/-- C1: the claim says a registration that passes verify_qualification
but fails verify_cryptographic_proofs still creates the node with status
Pending. The code instead returns a hard CryptoError before the insert
(registry.rs lines 137-141), which makes the pending-status assignment
at line 149 and the pending-registration log at line 177 unreachable. At
the failing input (a 5% mining pool with an empty mined-block list)
qualification passes, crypto verification fails, and registration errors
with no node created; when both checks pass the node is created with
status active, confirming the second half of the claim. -/
theorem C1_pending_path_unreachable :
    verify_qualification test_registry .MiningPool
      (mining_qualification [] 5) = .ok true ∧
    verify_cryptographic_proofs test_registry .MiningPool
      (mining_qualification [] 5) "pk1" = .ok false ∧
    register_economic_node test_registry [] .MiningPool "Pool One" "pk1"
      (mining_qualification [] 5) (some "admin") 1000 =
      .error (.CryptoError "Cryptographic proof verification failed") ∧
    Except.map (fun r => r.2.map (fun n => n.status))
      (register_economic_node test_registry [] .MiningPool "Pool One" "pk1"
        (mining_qualification ["block1"] 5) (some "admin") 1000) =
      .ok ["active"] := by
  with_unfolding_all decide

/-- C5: with a phase calculator whose adaptive parameters resolve to cap
c, the mining-pool weight is min(percentage / 100, c); hashpower 8 with
cap 0.10 gives 0.08 (uncapped) and hashpower 35 with the same cap gives
0.10 (capped). -/
theorem C5_mining_pool_weight_is_min_of_cap :
    (∀ (reg : EconomicNodeRegistry) (qd : QualificationProof)
        (hp : HashpowerProof) (c : Rat),
      reg.phase_calculator = some (.ok { mining_pool_weight_cap := c }) →
      qd.hashpower_proof = some hp →
      calculate_weight reg .MiningPool qd =
        .ok (min (hp.percentage / 100) c)) ∧
    calculate_weight test_registry .MiningPool
      (mining_qualification ["block1"] 8) = .ok ((8 : Rat) / 100) ∧
    calculate_weight test_registry .MiningPool
      (mining_qualification ["block1"] 35) = .ok ((1 : Rat) / 10) := by
  refine ⟨?_, by with_unfolding_all decide, by with_unfolding_all decide⟩
  intro reg qd hp c hreg hqd
  simp only [calculate_weight, hreg, hqd]

/-- C5 witness: applying the general min property at the concrete
8%-hashpower pool under the 0.10 cap. -/
theorem C5_mining_pool_weight_witness :
    calculate_weight test_registry .MiningPool
      (mining_qualification ["block1"] 8) =
      .ok (min ((8 : Rat) / 100) ((1 : Rat) / 10)) :=
  C5_mining_pool_weight_is_min_of_cap.1 test_registry
    (mining_qualification ["block1"] 8)
    { blocks_mined := ["block1"], time_period_days := 30
      total_network_blocks := 100, percentage := 8 }
    ((1 : Rat) / 10) rfl rfl

/-- C6 counterexample: the claim says an Exchange whose required proof
sub-structure is absent fails with a typed error; the code instead treats
each absent Exchange proof as a zero term and returns Ok(0.0) when both
holdings and volume proofs are missing. -/
theorem C6_counterexample_exchange_ok_zero :
    calculate_weight test_registry .Exchange exchange_no_proofs = .ok 0 := by
  with_unfolding_all decide

/-- C6 (amended): MiningPool without a hashpower proof and Custodian or
MajorHolder without a holdings proof fail with a typed CryptoError;
Exchange, by contrast, treats an absent holdings or volume proof as a
zero contribution and returns Ok(0.0) when both are absent. -/
theorem C6_missing_proof_error_behavior :
    (∀ (reg : EconomicNodeRegistry) (qd : QualificationProof),
      qd.hashpower_proof = none →
      calculate_weight reg .MiningPool qd =
        .error (.CryptoError "Hashpower proof required for mining pools")) ∧
    (∀ (reg : EconomicNodeRegistry) (qd : QualificationProof),
      qd.holdings_proof = none →
      calculate_weight reg .Custodian qd =
        .error (.CryptoError "Holdings proof required for custodians")) ∧
    (∀ (reg : EconomicNodeRegistry) (qd : QualificationProof),
      qd.holdings_proof = none →
      calculate_weight reg .MajorHolder qd =
        .error (.CryptoError "Holdings proof required for major holders")) ∧
    (∀ (reg : EconomicNodeRegistry) (qd : QualificationProof),
      qd.holdings_proof = none → qd.volume_proof = none →
      calculate_weight reg .Exchange qd = .ok 0) := by
  refine ⟨?_, ?_, ?_, ?_⟩
  · intro reg qd h
    simp only [calculate_weight, h]
  · intro reg qd h
    simp only [calculate_weight, h]
  · intro reg qd h
    simp only [calculate_weight, h]
  · intro reg qd h1 h2
    simp only [calculate_weight, h1, h2]
    norm_num

/-- C6 witness: the three erroring categories and the Exchange zero
result at a concrete proofless qualification. -/
theorem C6_missing_proof_error_witness :
    calculate_weight test_registry .MiningPool exchange_no_proofs =
      .error (.CryptoError "Hashpower proof required for mining pools") ∧
    calculate_weight test_registry .Custodian exchange_no_proofs =
      .error (.CryptoError "Holdings proof required for custodians") ∧
    calculate_weight test_registry .MajorHolder exchange_no_proofs =
      .error (.CryptoError "Holdings proof required for major holders") ∧
    calculate_weight test_registry .Exchange exchange_no_proofs = .ok 0 :=
  ⟨C6_missing_proof_error_behavior.1 test_registry exchange_no_proofs rfl,
   C6_missing_proof_error_behavior.2.1 test_registry exchange_no_proofs rfl,
   C6_missing_proof_error_behavior.2.2.1 test_registry exchange_no_proofs rfl,
   C6_missing_proof_error_behavior.2.2.2 test_registry exchange_no_proofs rfl rfl⟩

/-- A registered config entry for the change-workflow fixtures. -/
def c8_entry : ConfigEntry :=
  { id := 1, config_key := "k", config_category := .Thresholds
    current_value := .int 1, default_value := .int 1, description := none
    tier_requirement := 5, created_at := 0, updated_at := 0
    created_by := none, notes := none }

/-- An already-approved change for key k proposing value 2. -/
def c8_change_approved : ConfigChange :=
  { id := 1, config_key := "k", proposed_value := .int 2
    current_value := .int 1, change_reason := none
    proposed_by := "proposer", proposed_at := 0, tier_requirement := 5
    status := .Approved, approval_pr_id := some 7, approved_at := some 1
    approved_by := some "approver", activated_at := none
    activation_pr_id := none, notes := none }

/-- A still-pending change for key k proposing value 2. -/
def c8_change_pending : ConfigChange :=
  { c8_change_approved with status := .Pending, approval_pr_id := none
                            approved_at := none, approved_by := none }

/-- Store holding the entry and the approved change. -/
def c8_db_approved : RegistryDb :=
  { entries := [c8_entry], changes := [c8_change_approved], history := []
    next_entry_id := 2, next_change_id := 2 }

/-- Store holding the entry and the pending change. -/
def c8_db_pending : RegistryDb :=
  { entries := [c8_entry], changes := [c8_change_pending], history := []
    next_entry_id := 2, next_change_id := 2 }

/-- C8 counterexample: the claim says calling approve_change on a
non-Pending change is rejected as an error; on an Approved change the
call instead reports success and leaves the store untouched (the UPDATE
is guarded by status = pending and matches no row). -/
theorem C8_counterexample_approved_returns_ok :
    approve_change c8_db_approved 1 99 "maintainer" 50 = .ok c8_db_approved := by
  with_unfolding_all decide

/-- Effect of the approve_change row update on the change located by
get_change, when that change is pending. -/
theorem approve_map_find (changes : List ConfigChange)
    (change_id pr now : Int) (approver : String) (ch : ConfigChange)
    (hfind : changes.find? (fun c => c.id == change_id) = some ch)
    (hst : ch.status = ConfigChangeStatus.Pending) :
    (changes.map (fun c =>
      if c.id == change_id && c.status == ConfigChangeStatus.Pending then
        { c with status := .Approved, approval_pr_id := some pr
                 approved_at := some now, approved_by := some approver }
      else c)).find? (fun c => c.id == change_id) =
      some { ch with status := .Approved, approval_pr_id := some pr
                     approved_at := some now
                     approved_by := some approver } := by
  have hpred : ∀ c : ConfigChange,
      ((if c.id == change_id && c.status == ConfigChangeStatus.Pending then
          ({ c with status := ConfigChangeStatus.Approved
                    approval_pr_id := some pr
                    approved_at := some now
                    approved_by := some approver } : ConfigChange)
        else c).id == change_id) = (c.id == change_id) := by
    intro c
    by_cases hc :
        (c.id == change_id && c.status == ConfigChangeStatus.Pending) = true
    · rw [if_pos hc]
    · rw [if_neg hc]
  rw [find_map_of_pred_invariant _ _ _ hpred, hfind]
  have h1 : (ch.id == change_id) = true := by
    have := List.find?_some hfind
    simpa using this
  have hc : (ch.id == change_id && ch.status == ConfigChangeStatus.Pending) =
      true := by
    rw [h1, hst]
    rfl
  show some (if ch.id == change_id && ch.status == ConfigChangeStatus.Pending
      then ({ ch with status := ConfigChangeStatus.Approved
                      approval_pr_id := some pr, approved_at := some now
                      approved_by := some approver } : ConfigChange)
      else ch) =
    some { ch with status := ConfigChangeStatus.Approved
                   approval_pr_id := some pr, approved_at := some now
                   approved_by := some approver }
  rw [if_pos hc]

/-- C8 (amended): approve_change transitions Pending to Approved only;
it never reports an error, on a store whose matching changes are all
non-Pending it is a silent no-op returning the store unchanged, and on a
Pending change it records the approval metadata. -/
theorem C8_approve_change_silent_noop :
    (∀ (db : RegistryDb) (change_id pr : Int) (approver : String) (now : Int),
      (approve_change db change_id pr approver now).toOption.isSome = true) ∧
    (∀ (db : RegistryDb) (change_id pr : Int) (approver : String) (now : Int),
      (∀ ch ∈ db.changes, ch.id = change_id →
        ch.status ≠ ConfigChangeStatus.Pending) →
      approve_change db change_id pr approver now = .ok db) ∧
    (∀ (db : RegistryDb) (change_id pr : Int) (approver : String) (now : Int)
        (ch : ConfigChange),
      get_change db change_id = some ch →
      ch.status = ConfigChangeStatus.Pending →
      get_change ((approve_change db change_id pr approver now).toOption.getD db)
          change_id =
        some { ch with status := .Approved, approval_pr_id := some pr
                       approved_at := some now, approved_by := some approver }) := by
  refine ⟨fun db change_id pr approver now => rfl, ?_, ?_⟩
  · intro db change_id pr approver now h
    unfold approve_change
    have hmap : db.changes.map (fun ch =>
        if ch.id == change_id && ch.status == ConfigChangeStatus.Pending then
          { ch with status := .Approved, approval_pr_id := some pr
                    approved_at := some now, approved_by := some approver }
        else ch) = db.changes := by
      apply map_id_of_fixed
      intro ch hch
      have : (ch.id == change_id && ch.status == ConfigChangeStatus.Pending) =
          false := by
        by_cases hid : ch.id = change_id
        · have hst := h ch hch hid
          have : (ch.status == ConfigChangeStatus.Pending) = false := by
            simp [beq_eq_false_iff_ne, hst]
          simp [this]
        · have : (ch.id == change_id) = false := by
            simp [beq_eq_false_iff_ne, hid]
          simp [this]
      simp [this]
    rw [hmap]
  · intro db change_id pr approver now ch hfind hst
    unfold approve_change
    simp only [Except.toOption, Option.getD]
    unfold get_change at hfind ⊢
    exact approve_map_find db.changes change_id pr now approver ch hfind hst

/-- C8 witness: the approved change is a successful no-op, and the
pending change transitions to Approved with the approval metadata. -/
theorem C8_approve_change_witness :
    approve_change c8_db_approved 2 99 "maintainer" 50 = .ok c8_db_approved ∧
    get_change ((approve_change c8_db_pending 1 7 "maintainer" 50).toOption.getD
        c8_db_pending) 1 =
      some { c8_change_pending with status := .Approved
                                    approval_pr_id := some 7
                                    approved_at := some 50
                                    approved_by := some "maintainer" } :=
  ⟨C8_approve_change_silent_noop.2.1 c8_db_approved 2 99 "maintainer" 50
    (by decide),
   C8_approve_change_silent_noop.2.2 c8_db_pending 1 7 "maintainer" 50
    c8_change_pending (by decide) rfl⟩

/-- C4: a successful registration leaves exactly one node with the
registered public key, and any further registration attempt with the
same public key fails with the duplicate-key CryptoError regardless of
the node type, qualification data, creator or registry wiring supplied
the second time. -/
theorem C4_duplicate_public_key_rejected :
    ∀ (reg : EconomicNodeRegistry) (nodes : List EconomicNodeRow)
      (nt : NodeType) (en pk : String) (qd : QualificationProof)
      (cb : Option String) (now new_id : Int)
      (nodes2 : List EconomicNodeRow),
      register_economic_node reg nodes nt en pk qd cb now =
        .ok (new_id, nodes2) →
      nodes2.countP (fun n => n.public_key == pk) = 1 ∧
      ∀ (reg2 : EconomicNodeRegistry) (nt2 : NodeType) (en2 : String)
        (qd2 : QualificationProof) (cb2 : Option String) (now2 : Int),
        register_economic_node reg2 nodes2 nt2 en2 pk qd2 cb2 now2 =
          .error (.CryptoError
            ("Node with public key " ++ pk ++ " already registered")) := by
  intro reg nodes nt en pk qd cb now new_id nodes2 h
  by_cases hdup : nodes.any (fun n => n.public_key == pk) = true
  · rw [register_economic_node, if_pos hdup] at h
    exact absurd h (by simp)
  · rw [register_economic_node, if_neg hdup] at h
    have hdup2 : nodes.any (fun n => n.public_key == pk) = false :=
      Bool.eq_false_iff.mpr hdup
    cases hv : verify_qualification reg nt qd with
    | error e =>
      rw [hv] at h
      exact absurd h (by simp [Bind.bind, Except.bind])
    | ok verified =>
      rw [hv] at h
      simp only [Bind.bind, Except.bind] at h
      cases verified with
      | false => exact absurd h (by simp)
      | true =>
        simp only [Bool.not_true, Bool.false_eq_true, if_false] at h
        cases hcv : verify_cryptographic_proofs reg nt qd pk with
        | error e =>
          rw [hcv] at h
          exact absurd h (by simp)
        | ok crypto_verified =>
          rw [hcv] at h
          simp only at h
          cases crypto_verified with
          | false => exact absurd h (by simp)
          | true =>
            simp only [Bool.not_true, Bool.false_eq_true, if_false] at h
            cases hw : calculate_weight reg nt qd with
            | error e =>
              rw [hw] at h
              exact absurd h (by simp)
            | ok weight =>
              rw [hw] at h
              simp only [Except.ok.injEq, Prod.mk.injEq] at h
              obtain ⟨-, hnodes2⟩ := h
              constructor
              · rw [← hnodes2, List.countP_append]
                have hzero : nodes.countP (fun n => n.public_key == pk) = 0 := by
                  rw [List.countP_eq_zero]
                  intro a ha
                  exact (List.any_eq_false.mp hdup2) a ha
                rw [hzero]
                simp [List.countP_cons]
              · intro reg2 nt2 en2 qd2 cb2 now2
                have hany2 : nodes2.any (fun n => n.public_key == pk) = true := by
                  rw [← hnodes2]
                  simp [List.any_append]
                rw [register_economic_node, if_pos hany2]

/-- C4 witness row: the node created by the concrete first registration. -/
def c4_row : EconomicNodeRow :=
  { id := 1, node_type := .MiningPool, entity_name := "Pool One"
    public_key := "pk1"
    qualification_data := mining_qualification ["block1"] 5
    weight := (1 : Rat) / 20, status := "active", registered_at := 1000
    verified_at := some 1000, created_by := some "admin" }

/-- C4 witness: after the concrete successful registration of pk1, a
second registration with the same key but different type and data fails
with the duplicate-key error. -/
theorem C4_duplicate_public_key_witness :
    register_economic_node test_registry [c4_row] .Exchange "Other" "pk1"
      exchange_no_proofs none 2000 =
      .error (.CryptoError
        ("Node with public key " ++ "pk1" ++ " already registered")) :=
  (C4_duplicate_public_key_rejected test_registry [] .MiningPool "Pool One"
    "pk1" (mining_qualification ["block1"] 5) (some "admin") 1000 1 [c4_row]
    (by set_option maxRecDepth 100000 in with_unfolding_all decide)).2
  test_registry .Exchange "Other" exchange_no_proofs none 2000

/-- Every entry of an upsert carrying the upserted key holds the
upserted timestamp. -/
theorem tsUpsert_key_val (l : TsList) (mid : String) (ts : Int) :
    ∀ p ∈ tsUpsert l mid ts, p.1 = mid → p = (mid, ts) := by
  intro p hp hkey
  unfold tsUpsert at hp
  by_cases h : l.any (fun q => q.1 == mid) = true
  · rw [if_pos h] at hp
    obtain ⟨q, hq, hfq⟩ := List.mem_map.mp hp
    by_cases hq1 : (q.1 == mid) = true
    · rw [if_pos hq1] at hfq
      exact hfq.symm
    · rw [if_neg hq1] at hfq
      exact absurd (by rw [hfq]; simp [hkey] : (q.1 == mid) = true) hq1
  · rw [if_neg h] at hp
    rcases List.mem_append.mp hp with hl | hr
    · exfalso
      have hfalse : l.any (fun q => q.1 == mid) = false :=
        Bool.eq_false_iff.mpr h
      have := (List.any_eq_false.mp hfalse) p hl
      exact this (by simp [hkey])
    · simpa using hr

/-- An upsert contains an entry with the upserted key. -/
theorem tsUpsert_mem (l : TsList) (mid : String) (ts : Int) :
    ∃ p ∈ tsUpsert l mid ts, (p.1 == mid) = true := by
  unfold tsUpsert
  by_cases h : l.any (fun q => q.1 == mid) = true
  · rw [if_pos h]
    obtain ⟨q, hq, hq1⟩ := List.any_eq_true.mp h
    refine ⟨(mid, ts), ?_, by simp⟩
    have hmem := List.mem_map_of_mem
      (fun p : String × Int => if p.1 == mid then (mid, ts) else p) hq
    simp only at hmem
    rw [if_pos hq1] at hmem
    exact hmem
  · rw [if_neg h]
    exact ⟨(mid, ts), List.mem_append_right _ (by simp), by simp⟩

/-- Looking up the upserted key returns the upserted timestamp. -/
theorem tsLookup_tsUpsert (l : TsList) (mid : String) (ts : Int) :
    tsLookup (tsUpsert l mid ts) mid = some ts := by
  have hsome : ((tsUpsert l mid ts).find? (fun p => p.1 == mid)).isSome := by
    rw [List.find?_isSome]
    exact tsUpsert_mem l mid ts
  obtain ⟨p, hp⟩ := Option.isSome_iff_exists.mp hsome
  have hmem := List.mem_of_find?_eq_some hp
  have hpred : (p.1 == mid) = true := by
    have := List.find?_some hp
    simpa using this
  have hkey : p.1 = mid := by simpa using hpred
  have := tsUpsert_key_val l mid ts p hmem hkey
  unfold tsLookup
  rw [hp, this]
  rfl

/-- C9: marking a message id and immediately checking reports a
duplicate; running cleanup strictly more than the 24h TTL after the
marking prunes the id from both the in-memory cache and the persisted
store, after which the duplicate check reports false. -/
theorem C9_dedup_mark_cleanup_ttl :
    ∀ (st : DedupState) (t t2 : Int) (mid : String),
      dedup_ttl < t2 - t →
      is_duplicate (mark_processed st t mid) t mid = true ∧
      tsLookup (cleanup (mark_processed st t mid) t2).cache mid = none ∧
      tsLookup (cleanup (mark_processed st t mid) t2).db mid = none ∧
      is_duplicate (cleanup (mark_processed st t mid) t2) t2 mid = false := by
  intro st t t2 mid httl
  have hcache_val := tsUpsert_key_val st.cache mid t
  have hdb_val := tsUpsert_key_val st.db mid t
  have hlt : t < t2 - dedup_ttl := by omega
  have hcache_none :
      tsLookup (cleanup (mark_processed st t mid) t2).cache mid = none := by
    unfold tsLookup
    rw [Option.map_eq_none']
    rw [List.find?_eq_none]
    intro p hp
    simp only [cleanup, mark_processed] at hp
    have hmem := (List.mem_filter.mp hp).1
    have hcond := (List.mem_filter.mp hp).2
    intro hpk
    have hkey : p.1 = mid := by simpa using hpk
    have hpv := hcache_val p hmem hkey
    rw [hpv] at hcond
    simp only [decide_eq_true_eq] at hcond
    omega
  have hdb_none :
      tsLookup (cleanup (mark_processed st t mid) t2).db mid = none := by
    unfold tsLookup
    rw [Option.map_eq_none']
    rw [List.find?_eq_none]
    intro p hp
    simp only [cleanup, mark_processed] at hp
    have hmem := (List.mem_filter.mp hp).1
    have hcond := (List.mem_filter.mp hp).2
    intro hpk
    have hkey : p.1 = mid := by simpa using hpk
    have hpv := hdb_val p hmem hkey
    rw [hpv] at hcond
    simp only [Bool.not_eq_true', decide_eq_false_iff_not] at hcond
    omega
  refine ⟨?_, hcache_none, hdb_none, ?_⟩
  · have hlt0 : t - t < dedup_ttl := by
      unfold dedup_ttl
      omega
    simp only [is_duplicate, mark_processed, tsLookup_tsUpsert]
    rw [if_pos hlt0]
  · simp only [is_duplicate, hcache_none]
    rw [List.any_eq_false]
    intro p hp
    simp only [cleanup, mark_processed] at hp
    have hmem := (List.mem_filter.mp hp).1
    simp only [Bool.and_eq_true, decide_eq_true_eq, not_and]
    intro hpk
    have hkey : p.1 = mid := by simpa using hpk
    have hpv := hdb_val p hmem hkey
    rw [hpv]
    simp only
    omega

/-- C9 witness: a fresh deduplicator at time 0; cleanup at time 100000
(more than 24h later) prunes the marked id. -/
theorem C9_dedup_witness :
    is_duplicate (mark_processed ⟨[], []⟩ 0 "m1") 0 "m1" = true ∧
    tsLookup (cleanup (mark_processed ⟨[], []⟩ 0 "m1") 100000).cache "m1" =
      none ∧
    tsLookup (cleanup (mark_processed ⟨[], []⟩ 0 "m1") 100000).db "m1" =
      none ∧
    is_duplicate (cleanup (mark_processed ⟨[], []⟩ 0 "m1") 100000) 100000 "m1" =
      false :=
  C9_dedup_mark_cleanup_ttl ⟨[], []⟩ 0 100000 "m1"
    (by with_unfolding_all decide)

/-- One sync_from_yaml iteration neither touches the entry of a key with
governance-approved history nor erases that history. -/
theorem sync_pair_preserves_governance (now : Int) (db : RegistryDb)
    (count : Nat) (kv : String × Json) (k : String) (e : ConfigEntry)
    (hent : get_config db k = some e)
    (hgov : has_governance_history db k = true) :
    get_config (sync_pair now (db, count) kv).1 k = some e ∧
    has_governance_history (sync_pair now (db, count) kv).1 k = true := by
  have hek : (e.config_key == k) = true := by
    have := List.find?_some hent
    simpa using this
  unfold sync_pair
  dsimp only
  cases hc : get_config db kv.1 with
  | none =>
    dsimp only
    constructor
    · unfold get_config at hent
      unfold get_config register_config
      dsimp only
      exact find_append_left _ _ _ _ hent
    · exact hgov
  | some entry =>
    dsimp only
    by_cases heq : (entry.current_value == kv.2) = true
    · rw [if_pos heq]
      exact ⟨hent, hgov⟩
    · rw [if_neg heq]
      by_cases hgv : has_governance_history db kv.1 = true
      · rw [if_pos hgv]
        exact ⟨hent, hgov⟩
      · rw [if_neg hgv]
        dsimp only
        have hkne : (e.config_key == kv.1) = false := by
          have h1 : e.config_key = k := by simpa using hek
          by_cases hkk : k = kv.1
          · exact absurd (hkk ▸ hgov) hgv
          · simp [h1, hkk]
        constructor
        · unfold get_config at hent ⊢
          dsimp only
          have hpred : ∀ a : ConfigEntry,
              ((if a.config_key == kv.1 then
                  { a with current_value := kv.2, updated_at := now }
                else a).config_key == k) = (a.config_key == k) := by
            intro a
            by_cases ha : (a.config_key == kv.1) = true
            · rw [if_pos ha]
            · rw [if_neg ha]
          rw [find_map_of_pred_invariant _ _ _ hpred, hent]
          show some (if e.config_key == kv.1 then
            { e with current_value := kv.2, updated_at := now } else e) = some e
          rw [if_neg (by rw [hkne]; exact Bool.false_ne_true)]
        · unfold has_governance_history at hgov ⊢
          dsimp only
          exact any_append_left _ _ _ hgov

/-- The sync_from_yaml fold preserves the entry of every
governance-approved key. -/
theorem sync_fold_preserves_governance (now : Int)
    (yaml : List (String × Json)) :
    ∀ (acc : RegistryDb × Nat) (k : String) (e : ConfigEntry),
      get_config acc.1 k = some e →
      has_governance_history acc.1 k = true →
      get_config (yaml.foldl (sync_pair now) acc).1 k = some e := by
  induction yaml with
  | nil =>
    intro acc k e h1 _
    exact h1
  | cons kv rest ih =>
    intro acc k e h1 h2
    obtain ⟨h1s, h2s⟩ :=
      sync_pair_preserves_governance now acc.1 acc.2 kv k e h1 h2
    exact ih (sync_pair now acc kv) k e h1s h2s

/-- C2: sync_from_yaml leaves both the entry and the stored
current_value of every key that has at least one governance_approved
history row untouched, whatever the YAML file contains. -/
theorem C2_sync_never_overwrites_governance_approved :
    ∀ (db : RegistryDb) (yaml : List (String × Json)) (now : Int)
      (k : String) (e : ConfigEntry),
      get_config db k = some e →
      has_governance_history db k = true →
      get_config (sync_from_yaml db yaml now).1 k = some e ∧
      get_current_value (sync_from_yaml db yaml now).1 k =
        get_current_value db k := by
  intro db yaml now k e hent hgov
  have h := sync_fold_preserves_governance now yaml (db, 0) k e hent hgov
  refine ⟨h, ?_⟩
  unfold get_current_value sync_from_yaml
  rw [h, hent]

/-- History row for the C2 witness: key k was governance-activated. -/
def c2_gov_row : HistoryRow :=
  { config_key := "k", old_value := .int 0, new_value := .int 1
    changed_at := 5, changed_by := "proposer", change_id := some 1
    activation_method := "governance_approved" }

/-- Store for the C2 witness: the entry for k currently holds 1 and has
a governance-approved history row. -/
def c2_db : RegistryDb :=
  { entries := [c8_entry], changes := [], history := [c2_gov_row]
    next_entry_id := 2, next_change_id := 1 }

/-- C2 witness: syncing a differing YAML value 42 for the
governance-approved key k leaves the stored entry and value unchanged. -/
theorem C2_sync_witness :
    get_config (sync_from_yaml c2_db [("k", .int 42)] 99).1 "k" =
      some c8_entry ∧
    get_current_value (sync_from_yaml c2_db [("k", .int 42)] 99).1 "k" =
      get_current_value c2_db "k" :=
  C2_sync_never_overwrites_governance_approved c2_db [("k", .int 42)] 99 "k"
    c8_entry (by with_unfolding_all decide) (by with_unfolding_all decide)

/-- kvRemove deletes every binding of the removed key. -/
theorem kvLookup_kvRemove (l : KvList) (key : String) :
    kvLookup (kvRemove l key) key = none := by
  unfold kvLookup kvRemove
  rw [Option.map_eq_none']
  rw [List.find?_eq_none]
  intro p hp
  have hcond := (List.mem_filter.mp hp).2
  intro hpk
  simp only [bne] at hcond
  rw [hpk] at hcond
  simp at hcond

/-- Store component of an activate_change outcome (the input store when
the call fails). -/
def activate_db (db : RegistryDb) (cache : KvList) (hr : Bool)
    (change_id : Int) (pr : Option Int) (now : Int) : RegistryDb :=
  match activate_change db cache hr change_id pr now with
  | .ok r => r.2.1
  | .error _ => db

/-- Cache component of an activate_change outcome (the input cache when
the call fails). -/
def activate_cache (db : RegistryDb) (cache : KvList) (hr : Bool)
    (change_id : Int) (pr : Option Int) (now : Int) : KvList :=
  match activate_change db cache hr change_id pr now with
  | .ok r => r.2.2
  | .error _ => cache

/-- Unfolding of activate_change on an approved change with a reader
attached. -/
theorem activate_change_approved_eq (db : RegistryDb) (cache : KvList)
    (change_id : Int) (pr : Option Int) (now : Int) (ch : ConfigChange)
    (hch : get_change db change_id = some ch)
    (hst : ch.status = ConfigChangeStatus.Approved) :
    activate_change db cache true change_id pr now =
      .ok (ch.config_key,
        { db with
          entries := db.entries.map (fun e =>
            if e.config_key == ch.config_key then
              { e with current_value := ch.proposed_value, updated_at := now }
            else e)
          changes := db.changes.map (fun c =>
            if c.id == change_id then
              { c with status := .Activated, activated_at := some now
                       activation_pr_id := pr }
            else c)
          history := db.history ++
            [{ config_key := ch.config_key, old_value := ch.current_value
               new_value := ch.proposed_value, changed_at := now
               changed_by := ch.proposed_by, change_id := some change_id
               activation_method := "governance_approved" }] },
        kvRemove cache ch.config_key) := by
  unfold activate_change
  rw [hch]
  dsimp only
  rw [hst]
  rfl

/-- C3: activate_change on a change that is not yet Approved (e.g. still
Pending) fails with a typed ConfigError and performs no write; on an
Approved change (with the reader attached) it writes the proposed value
into the entry, marks the change Activated, appends exactly one
governance_approved history row, removes the key from the reader cache,
and a subsequent get_value through that warm cache returns the newly
activated value. -/
theorem C3_activate_change_behavior :
    (∀ (db : RegistryDb) (cache : KvList) (hr : Bool) (change_id : Int)
        (pr : Option Int) (now : Int) (ch : ConfigChange),
      get_change db change_id = some ch →
      ch.status = ConfigChangeStatus.Pending →
      activate_change db cache hr change_id pr now =
        .error (.ConfigError "Change is not approved")) ∧
    (∀ (db : RegistryDb) (cache : KvList) (change_id : Int)
        (pr : Option Int) (now : Int) (ch : ConfigChange) (e : ConfigEntry),
      get_change db change_id = some ch →
      ch.status = ConfigChangeStatus.Approved →
      get_config db ch.config_key = some e →
      activate_change db cache true change_id pr now =
        .ok (ch.config_key, activate_db db cache true change_id pr now,
             activate_cache db cache true change_id pr now) ∧
      get_current_value (activate_db db cache true change_id pr now)
          ch.config_key = some ch.proposed_value ∧
      (get_change (activate_db db cache true change_id pr now)
          change_id).map (fun c => c.status) =
        some ConfigChangeStatus.Activated ∧
      (activate_db db cache true change_id pr now).history =
        db.history ++
          [{ config_key := ch.config_key, old_value := ch.current_value
             new_value := ch.proposed_value, changed_at := now
             changed_by := ch.proposed_by, change_id := some change_id
             activation_method := "governance_approved" }] ∧
      kvLookup (activate_cache db cache true change_id pr now)
        ch.config_key = none ∧
      ∀ (yc : Option CommonsContributorThresholdsConfig)
        (yl : Option KvList),
        (get_value (activate_db db cache true change_id pr now)
          { cache := activate_cache db cache true change_id pr now
            yaml_config := yc, yaml_loader := yl } ch.config_key).1 =
          some ch.proposed_value) := by
  constructor
  · intro db cache hr change_id pr now ch hch hst
    unfold activate_change
    rw [hch]
    dsimp only
    rw [hst]
    rfl
  · intro db cache change_id pr now ch e hch hst hent
    have heq := activate_change_approved_eq db cache change_id pr now ch hch hst
    have hcond : (e.config_key == ch.config_key) = true := by
      have := List.find?_some hent
      simpa using this
    have hcid : (ch.id == change_id) = true := by
      have := List.find?_some hch
      simpa using this
    unfold activate_db activate_cache
    rw [heq]
    dsimp only
    have hcur : get_current_value
        { db with
          entries := db.entries.map (fun e =>
            if e.config_key == ch.config_key then
              { e with current_value := ch.proposed_value, updated_at := now }
            else e)
          changes := db.changes.map (fun c =>
            if c.id == change_id then
              { c with status := .Activated, activated_at := some now
                       activation_pr_id := pr }
            else c)
          history := db.history ++
            [{ config_key := ch.config_key, old_value := ch.current_value
               new_value := ch.proposed_value, changed_at := now
               changed_by := ch.proposed_by, change_id := some change_id
               activation_method := "governance_approved" }] }
        ch.config_key = some ch.proposed_value := by
      unfold get_config at hent
      unfold get_current_value get_config
      dsimp only
      have hpred : ∀ a : ConfigEntry,
          ((if a.config_key == ch.config_key then
              { a with current_value := ch.proposed_value, updated_at := now }
            else a).config_key == ch.config_key) =
            (a.config_key == ch.config_key) := by
        intro a
        by_cases ha : (a.config_key == ch.config_key) = true
        · rw [if_pos ha]
        · rw [if_neg ha]
      rw [find_map_of_pred_invariant _ _ _ hpred, hent]
      show some ((if e.config_key == ch.config_key then
        { e with current_value := ch.proposed_value, updated_at := now }
        else e).current_value) = some ch.proposed_value
      rw [if_pos hcond]
    refine ⟨rfl, hcur, ?_, rfl, kvLookup_kvRemove cache ch.config_key, ?_⟩
    · unfold get_change at hch ⊢
      dsimp only
      have hpred : ∀ c : ConfigChange,
          ((if c.id == change_id then
              { c with status := ConfigChangeStatus.Activated
                       activated_at := some now, activation_pr_id := pr }
            else c).id == change_id) = (c.id == change_id) := by
        intro c
        by_cases hc2 : (c.id == change_id) = true
        · rw [if_pos hc2]
        · rw [if_neg hc2]
      rw [find_map_of_pred_invariant _ _ _ hpred, hch]
      show some ((if ch.id == change_id then
        { ch with status := ConfigChangeStatus.Activated
                  activated_at := some now, activation_pr_id := pr }
        else ch).status) = some ConfigChangeStatus.Activated
      rw [if_pos hcid]
    · intro yc yl
      unfold get_value
      dsimp only
      rw [kvLookup_kvRemove]
      dsimp only
      rw [hcur]

/-- C3 witness: activating the pending change fails; activating the
approved change updates key k to 2, marks the change activated, appends
the history row, evicts k from the warm cache and the next read through
that cache returns 2. -/
theorem C3_activate_change_witness :
    activate_change c8_db_pending [("k", Json.int 1)] true 1 (some 9) 77 =
      .error (.ConfigError "Change is not approved") ∧
    get_current_value
        (activate_db c8_db_approved [("k", Json.int 1)] true 1 (some 9) 77)
        "k" = some (.int 2) ∧
    (get_change
        (activate_db c8_db_approved [("k", Json.int 1)] true 1 (some 9) 77)
        1).map (fun c => c.status) = some ConfigChangeStatus.Activated ∧
    kvLookup
        (activate_cache c8_db_approved [("k", Json.int 1)] true 1 (some 9) 77)
        "k" = none ∧
    (get_value
        (activate_db c8_db_approved [("k", Json.int 1)] true 1 (some 9) 77)
        { cache :=
            activate_cache c8_db_approved [("k", Json.int 1)] true 1 (some 9) 77
          yaml_config := none, yaml_loader := none } "k").1 =
      some (.int 2) := by
  have h2 := C3_activate_change_behavior.2 c8_db_approved [("k", Json.int 1)]
    1 (some 9) 77 c8_change_approved c8_entry (by with_unfolding_all decide)
    (by with_unfolding_all decide) (by with_unfolding_all decide)
  exact ⟨C3_activate_change_behavior.1 c8_db_pending [("k", Json.int 1)] true
      1 (some 9) 77 c8_change_pending (by with_unfolding_all decide)
      (by with_unfolding_all decide),
    h2.2.1, h2.2.2.1, h2.2.2.2.2.1, h2.2.2.2.2.2 none none⟩

/-- An empty reader state: cold cache, no YAML config, no YAML loader. -/
def rd0 : ConfigReaderState :=
  { cache := [], yaml_config := none, yaml_loader := none }

/-- Store for the accessor claims: one string value, one integer value,
a threshold string with a bad N, one with a bad M, and one with no
N-of-M separator at all. -/
def c7_db : RegistryDb :=
  { entries :=
      [{ c8_entry with id := 1, config_key := "a"
                       current_value := .str "x", default_value := .str "x" },
       { c8_entry with id := 2, config_key := "b"
                       current_value := .int 3, default_value := .int 3 },
       { c8_entry with id := 3, config_key := "d"
                       current_value := .str "x-of-y"
                       default_value := .str "x-of-y" },
       { c8_entry with id := 4, config_key := "f"
                       current_value := .str "5-of-z"
                       default_value := .str "5-of-z" },
       { c8_entry with id := 5, config_key := "ks"
                       current_value := .str "garbage"
                       default_value := .str "garbage" }]
    changes := [], history := [], next_entry_id := 6, next_change_id := 1 }

/-- C7 counterexample: the claim says a present but unparseable
threshold-pair string yields a typed ConfigError; a stored string without
the N-of-M separator ("garbage") instead falls back with a warning,
returning the fallback pair (and caching the read). -/
theorem C7_counterexample_no_separator_falls_back :
    get_threshold_pair c7_db rd0 "ks" (5, 7) =
      .ok ((5, 7), { rd0 with cache := [("ks", Json.str "garbage")] }) := by
  with_unfolding_all decide

/-- C7 (amended): every typed accessor returns the supplied fallback
(without error) when the key resolves to nothing along the chain, and a
typed ConfigError when the resolved value cannot be coerced to the
requested type; for the threshold pair, a non-string value and a string
whose N or M component fails to parse are ConfigErrors, while a
non-empty string lacking the -of- separator falls back silently. -/
theorem C7_typed_accessors :
    ∀ (db : RegistryDb) (rd : ConfigReaderState) (key : String),
      ((get_value db rd key).1 = none →
        (∀ fb : Int, get_i32 db rd key fb =
          .ok (fb, (get_value db rd key).2)) ∧
        (∀ fb : Int, get_u32 db rd key fb =
          .ok (fb, (get_value db rd key).2)) ∧
        (∀ fb : Rat, get_f64 db rd key fb =
          .ok (fb, (get_value db rd key).2)) ∧
        (∀ fb : Bool, get_bool db rd key fb =
          .ok (fb, (get_value db rd key).2)) ∧
        (∀ fb : String, get_string db rd key fb =
          .ok (fb, (get_value db rd key).2)) ∧
        (∀ fb : Nat × Nat, get_threshold_pair db rd key fb =
          .ok (fb, (get_value db rd key).2))) ∧
      (∀ v, (get_value db rd key).1 = some v →
        (v.as_i64 = none → v.as_u64 = none → ∀ fb : Int,
          get_i32 db rd key fb = .error (.ConfigError
            ("Config " ++ key ++ " is not a valid integer"))) ∧
        (v.as_u64 = none → v.as_i64 = none → ∀ fb : Int,
          get_u32 db rd key fb = .error (.ConfigError
            ("Config " ++ key ++ " is not a valid unsigned integer"))) ∧
        (v.as_f64 = none → ∀ fb : Rat,
          get_f64 db rd key fb = .error (.ConfigError
            ("Config " ++ key ++ " is not a valid float"))) ∧
        (v.as_bool = none → ∀ fb : Bool,
          get_bool db rd key fb = .error (.ConfigError
            ("Config " ++ key ++ " is not a valid boolean"))) ∧
        (v.as_str = none → ∀ fb : String,
          get_string db rd key fb = .error (.ConfigError
            ("Config " ++ key ++ " is not a valid string"))) ∧
        (v.as_str = none → ∀ fb : Nat × Nat,
          get_threshold_pair db rd key fb = .error (.ConfigError
            ("Config " ++ key ++ " is not a valid string"))) ∧
        (∀ s a b, v = .str s → s.isEmpty = false →
          split_once s "-of-" = some (a, b) → parse_u32 a = none →
          ∀ fb : Nat × Nat,
          get_threshold_pair db rd key fb = .error (.ConfigError
            ("Invalid threshold format in " ++ key ++ ": cannot parse N"))) ∧
        (∀ s a b n, v = .str s → s.isEmpty = false →
          split_once s "-of-" = some (a, b) → parse_u32 a = some n →
          parse_u32 b = none → ∀ fb : Nat × Nat,
          get_threshold_pair db rd key fb = .error (.ConfigError
            ("Invalid threshold format in " ++ key ++ ": cannot parse M"))) ∧
        (∀ s, v = .str s → s.isEmpty = false → split_once s "-of-" = none →
          ∀ fb : Nat × Nat, get_threshold_pair db rd key fb =
            .ok (fb, (get_value db rd key).2))) := by
  intro db rd key
  rcases hgv : get_value db rd key with ⟨o, rd2⟩
  constructor
  · intro hnone
    have ho : o = none := hnone
    subst ho
    refine ⟨?_, ?_, ?_, ?_, ?_, ?_⟩ <;> intro fb
    · unfold get_i32
      rw [hgv]
    · unfold get_u32
      rw [hgv]
    · unfold get_f64
      rw [hgv]
    · unfold get_bool
      rw [hgv]
    · unfold get_string
      rw [hgv]
    · unfold get_threshold_pair get_string
      rw [hgv]
      rfl
  · intro v hsome
    have ho : o = some v := hsome
    subst ho
    refine ⟨?_, ?_, ?_, ?_, ?_, ?_, ?_, ?_, ?_⟩
    · intro h1 h2 fb
      unfold get_i32
      rw [hgv]
      dsimp only
      simp only [h1, h2]
      rfl
    · intro h1 h2 fb
      unfold get_u32
      rw [hgv]
      dsimp only
      simp only [h1, h2]
      rfl
    · intro h1 fb
      have hi : v.as_i64 = none := by
        cases v <;> simp_all [Json.as_f64, Json.as_i64]
      have hu : v.as_u64 = none := by
        cases v <;> simp_all [Json.as_f64, Json.as_u64]
      unfold get_f64
      rw [hgv]
      dsimp only
      simp only [h1, hi, hu]
      rfl
    · intro h1 fb
      unfold get_bool
      rw [hgv]
      dsimp only
      simp only [h1]
    · intro h1 fb
      unfold get_string
      rw [hgv]
      dsimp only
      simp only [h1]
    · intro h1 fb
      unfold get_threshold_pair get_string
      rw [hgv]
      dsimp only
      simp only [h1]
      rfl
    · intro s a b hv hse hsplit ha fb
      subst hv
      unfold get_threshold_pair get_string
      rw [hgv]
      dsimp only [Json.as_str]
      simp only [Bind.bind, Except.bind]
      simp [hse, hsplit, ha]
    · intro s a b n hv hse hsplit ha hb fb
      subst hv
      unfold get_threshold_pair get_string
      rw [hgv]
      dsimp only [Json.as_str]
      simp only [Bind.bind, Except.bind]
      simp [hse, hsplit, ha, hb]
    · intro s hv hse hsplit fb
      subst hv
      unfold get_threshold_pair get_string
      rw [hgv]
      dsimp only [Json.as_str]
      simp only [Bind.bind, Except.bind]
      simp [hse, hsplit]

/-- C7 witness: fallbacks on the absent key zz, coercion errors on the
string value a and the integer value b, threshold parse errors on d and
f, and the no-separator fallback on ks. -/
theorem C7_typed_accessors_witness :
    get_i32 c7_db rd0 "zz" 42 = .ok (42, (get_value c7_db rd0 "zz").2) ∧
    get_u32 c7_db rd0 "zz" 7 = .ok (7, (get_value c7_db rd0 "zz").2) ∧
    get_f64 c7_db rd0 "zz" 3 = .ok (3, (get_value c7_db rd0 "zz").2) ∧
    get_bool c7_db rd0 "zz" true = .ok (true, (get_value c7_db rd0 "zz").2) ∧
    get_string c7_db rd0 "zz" "dflt" =
      .ok ("dflt", (get_value c7_db rd0 "zz").2) ∧
    get_threshold_pair c7_db rd0 "zz" (5, 7) =
      .ok ((5, 7), (get_value c7_db rd0 "zz").2) ∧
    get_i32 c7_db rd0 "a" 0 = .error (.ConfigError
      ("Config " ++ "a" ++ " is not a valid integer")) ∧
    get_u32 c7_db rd0 "a" 0 = .error (.ConfigError
      ("Config " ++ "a" ++ " is not a valid unsigned integer")) ∧
    get_f64 c7_db rd0 "a" 0 = .error (.ConfigError
      ("Config " ++ "a" ++ " is not a valid float")) ∧
    get_bool c7_db rd0 "a" false = .error (.ConfigError
      ("Config " ++ "a" ++ " is not a valid boolean")) ∧
    get_string c7_db rd0 "b" "x" = .error (.ConfigError
      ("Config " ++ "b" ++ " is not a valid string")) ∧
    get_threshold_pair c7_db rd0 "b" (1, 2) = .error (.ConfigError
      ("Config " ++ "b" ++ " is not a valid string")) ∧
    get_threshold_pair c7_db rd0 "d" (1, 2) = .error (.ConfigError
      ("Invalid threshold format in " ++ "d" ++ ": cannot parse N")) ∧
    get_threshold_pair c7_db rd0 "f" (1, 2) = .error (.ConfigError
      ("Invalid threshold format in " ++ "f" ++ ": cannot parse M")) ∧
    get_threshold_pair c7_db rd0 "ks" (5, 7) =
      .ok ((5, 7), (get_value c7_db rd0 "ks").2) := by
  have habs := (C7_typed_accessors c7_db rd0 "zz").1
    (by with_unfolding_all decide)
  have ha := (C7_typed_accessors c7_db rd0 "a").2 (.str "x")
    (by with_unfolding_all decide)
  have hb := (C7_typed_accessors c7_db rd0 "b").2 (.int 3)
    (by with_unfolding_all decide)
  have hd := (C7_typed_accessors c7_db rd0 "d").2 (.str "x-of-y")
    (by with_unfolding_all decide)
  have hf := (C7_typed_accessors c7_db rd0 "f").2 (.str "5-of-z")
    (by with_unfolding_all decide)
  have hks := (C7_typed_accessors c7_db rd0 "ks").2 (.str "garbage")
    (by with_unfolding_all decide)
  exact ⟨habs.1 42, habs.2.1 7, habs.2.2.1 3, habs.2.2.2.1 true,
    habs.2.2.2.2.1 "dflt", habs.2.2.2.2.2 (5, 7),
    ha.1 rfl rfl 0, ha.2.1 rfl rfl 0, ha.2.2.1 rfl 0, ha.2.2.2.1 rfl 0,
    hb.2.2.2.2.1 rfl "x", hb.2.2.2.2.2.1 rfl (1, 2),
    hd.2.2.2.2.2.2.1 "x-of-y" "x" "y" rfl rfl
      (by with_unfolding_all decide) (by with_unfolding_all decide) (1, 2),
    hf.2.2.2.2.2.2.2.1 "5-of-z" "5" "z" 5 rfl rfl
      (by with_unfolding_all decide) (by with_unfolding_all decide)
      (by with_unfolding_all decide) (1, 2),
    hks.2.2.2.2.2.2.2.2 "garbage" rfl rfl
      (by with_unfolding_all decide) (5, 7)⟩

/-- A commons-contributor YAML configuration with every sub-threshold
disabled and AND logic. -/
def c10_cfg_disabled : CommonsThresholds :=
  { merge_mining := { enabled := false, minimum_contribution_btc := 0
                      minimum_sales_btc := none }
    fee_forwarding := { enabled := false, minimum_contribution_btc := 0
                        minimum_sales_btc := none }
    zaps := { enabled := false, minimum_contribution_btc := 0
              minimum_sales_btc := none }
    marketplace := { enabled := false, minimum_contribution_btc := 0
                     minimum_sales_btc := none }
    measurement_period_days := 90, qualification_logic := "AND"
    weight_calculation := { normalization_factor := 1
                            minimum_weight := (1 : Rat) / 100 } }

/-- Registry entry storing AND as the commons qualification logic. -/
def c10_logic_entry : ConfigEntry :=
  { c8_entry with id := 1
                  config_key := "commons_contributor_qualification_logic"
                  current_value := .str "AND", default_value := .str "AND" }

/-- Store for the ConfigReader-backed commons path: only the logic key
is registered, so every threshold key is absent. -/
def c10_db : RegistryDb :=
  { entries := [c10_logic_entry], changes := [], history := []
    next_entry_id := 2, next_change_id := 1 }

/-- Reader state for the ConfigReader-backed commons path: cold cache,
no YAML loader, and a YAML config whose four thresholds are all zero, so
each threshold resolves to zero through the fallback chain. -/
def c10_rd : ConfigReaderState :=
  { cache := [], yaml_config := some { commons_contributor_thresholds :=
      c10_cfg_disabled }, yaml_loader := none }

/-- A commons-contributor proof bundle with no sub-proofs. -/
def c10_empty_proof : CommonsContributorProof :=
  { merge_mining_proof := none, fee_forwarding_proof := none
    zap_proof := none, marketplace_sales_proof := none
    treasury_sales_proof := none, service_sales_proof := none }

/-- A CommonsContributor qualification carrying the empty proof bundle. -/
def c10_qd : QualificationProof :=
  { node_type := .CommonsContributor, hashpower_proof := none
    holdings_proof := none, volume_proof := none
    commons_contributor_proof := some c10_empty_proof
    contact_info := test_contact }

/-- C10: on the legacy YAML path with AND logic and all four
sub-thresholds disabled, any submission carrying a
commons_contributor_proof qualifies (zero enabled thresholds satisfy the
AND count check vacuously); the ConfigReader-backed path in the
analogous all-thresholds-zero situation instead rejects every
submission, because its AND branch additionally requires at least one
enabled threshold. -/
theorem C10_commons_and_logic_asymmetry :
    (∀ (cfg : CommonsThresholds) (qd : QualificationProof)
        (p : CommonsContributorProof),
      cfg.merge_mining.enabled = false → cfg.fee_forwarding.enabled = false →
      cfg.zaps.enabled = false → cfg.marketplace.enabled = false →
      cfg.qualification_logic = "AND" →
      qd.commons_contributor_proof = some p →
      verify_commons_contributor_qualification
        { commons_contributor_thresholds :=
            some { commons_contributor_thresholds := cfg }
          config_reader := none, phase_calculator := none
          btc_price_service := none, verify_signature := sig_accept
          sqrt_f64 := fun q => q } qd = .ok true) ∧
    (∀ (qd : QualificationProof) (p : CommonsContributorProof),
      qd.commons_contributor_proof = some p →
      verify_commons_contributor_with_config_reader c10_db c10_rd qd =
        .ok false) := by
  constructor
  · intro cfg qd p h1 h2 h3 h4 h5 hqd
    unfold verify_commons_contributor_qualification
    dsimp only
    rw [hqd]
    dsimp only
    rw [h1, h2, h3, h4, h5]
    with_unfolding_all rfl
  · intro qd p hqd
    unfold verify_commons_contributor_with_config_reader
    rw [hqd]
    with_unfolding_all rfl

/-- C10 witness: the concrete disabled-AND YAML configuration accepts
the empty-bundle submission on the legacy path, while the
ConfigReader-backed zero-threshold AND configuration rejects it. -/
theorem C10_commons_and_logic_witness :
    verify_commons_contributor_qualification
      { commons_contributor_thresholds :=
          some { commons_contributor_thresholds := c10_cfg_disabled }
        config_reader := none, phase_calculator := none
        btc_price_service := none, verify_signature := sig_accept
        sqrt_f64 := fun q => q } c10_qd = .ok true ∧
    verify_commons_contributor_with_config_reader c10_db c10_rd c10_qd =
      .ok false :=
  ⟨C10_commons_and_logic_asymmetry.1 c10_cfg_disabled c10_qd c10_empty_proof
    rfl rfl rfl rfl rfl rfl,
   C10_commons_and_logic_asymmetry.2 c10_qd c10_empty_proof rfl⟩

end BllvmCommons
